import Mathlib

/-!
Verification development for the metrics-aggregation core in
`lambdacollector/collector/collectors/metrics_calculator.py`.

The Python module is shallowly embedded: Python/JSON values become the
inductive type `Val`; dictionaries become association lists of `Val`
pairs; the mutable `MetricsAccumulator` becomes the structure `Acc`
with every method an explicit state-passing function.  Machine-level
concerns that the claims do not touch are idealized and documented at
the definition where the idealization happens (binary floating point is
replaced by exact rational arithmetic; CPython exceptions raised on
ill-typed records, e.g. calling `.lower()` on a non-string, are outside
the embedding, which instead stringifies).
-/

/-- Embedding of Python/JSON values as consumed and produced by the
module: `None`, booleans, strings, integers, lists and dictionaries.
Floats are not modelled; no claim involves one. -/
inductive Val where
  | vNull : Val
  | vBool (b : Bool) : Val
  | vStr (s : String) : Val
  | vInt (n : Int) : Val
  | vList (xs : List Val) : Val
  | vDict (xs : List (Val × Val)) : Val

open Val

/-- Python truthiness: `None`, `False`, `""`, `0`, `[]` and an empty
dict are falsy, everything else is truthy. -/
def truthy : Val → Bool
  | vNull => false
  | vBool b => b
  | vStr s => s ≠ ""
  | vInt n => n ≠ 0
  | vList xs => !xs.isEmpty
  | vDict xs => !xs.isEmpty

/-- Python `a or b`: the first operand when truthy, otherwise the
second. -/
def pyOr (a b : Val) : Val := if truthy a then a else b

/-- Python `==` on values, as used for dictionary keys, dedup keys and
the string comparisons in the dispatch table.  Structural equality;
the CPython cross-type identification `True == 1` is not modelled (no
record in scope mixes booleans and integers in one key position). -/
def vbeq : Val → Val → Bool
  | vNull, w => match w with | vNull => true | _ => false
  | vBool x, w => match w with | vBool y => x == y | _ => false
  | vStr x, w => match w with | vStr y => x == y | _ => false
  | vInt x, w => match w with | vInt y => x == y | _ => false
  | vList xs, w => match w with | vList ys => listEq xs ys | _ => false
  | vDict xs, w => match w with | vDict ys => dictEq xs ys | _ => false
where
  listEq : List Val → List Val → Bool
    | [], [] => true
    | x :: xs, y :: ys => vbeq x y && listEq xs ys
    | _, _ => false
  dictEq : List (Val × Val) → List (Val × Val) → Bool
    | [], [] => true
    | (k, v) :: xs, (k', v') :: ys => vbeq k k' && vbeq v v' && dictEq xs ys
    | _, _ => false

mutual
theorem vbeq_refl : (v : Val) → vbeq v v = true
  | vNull => rfl
  | vBool b => by cases b <;> rfl
  | vStr s => by simp [vbeq]
  | vInt n => by simp [vbeq]
  | vList xs => by simp [vbeq, vbeqList_refl xs]
  | vDict xs => by simp [vbeq, vbeqDict_refl xs]

theorem vbeqList_refl : (xs : List Val) → vbeq.listEq xs xs = true
  | [] => rfl
  | x :: xs => by simp [vbeq.listEq, vbeq_refl x, vbeqList_refl xs]

theorem vbeqDict_refl : (xs : List (Val × Val)) → vbeq.dictEq xs xs = true
  | [] => rfl
  | (k, v) :: xs => by simp [vbeq.dictEq, vbeq_refl k, vbeq_refl v, vbeqDict_refl xs]
end

mutual
theorem eq_of_vbeq : (v w : Val) → vbeq v w = true → v = w
  | vNull, vNull, _ => rfl
  | vNull, vBool _, h => by simp [vbeq] at h
  | vNull, vStr _, h => by simp [vbeq] at h
  | vNull, vInt _, h => by simp [vbeq] at h
  | vNull, vList _, h => by simp [vbeq] at h
  | vNull, vDict _, h => by simp [vbeq] at h
  | vBool x, vBool y, h => by simpa [vbeq] using h
  | vBool _, vNull, h => by simp [vbeq] at h
  | vBool _, vStr _, h => by simp [vbeq] at h
  | vBool _, vInt _, h => by simp [vbeq] at h
  | vBool _, vList _, h => by simp [vbeq] at h
  | vBool _, vDict _, h => by simp [vbeq] at h
  | vStr x, vStr y, h => by simpa [vbeq] using h
  | vStr _, vNull, h => by simp [vbeq] at h
  | vStr _, vBool _, h => by simp [vbeq] at h
  | vStr _, vInt _, h => by simp [vbeq] at h
  | vStr _, vList _, h => by simp [vbeq] at h
  | vStr _, vDict _, h => by simp [vbeq] at h
  | vInt x, vInt y, h => by simpa [vbeq] using h
  | vInt _, vNull, h => by simp [vbeq] at h
  | vInt _, vBool _, h => by simp [vbeq] at h
  | vInt _, vStr _, h => by simp [vbeq] at h
  | vInt _, vList _, h => by simp [vbeq] at h
  | vInt _, vDict _, h => by simp [vbeq] at h
  | vList xs, vList ys, h => by
      simp only [vbeq] at h
      exact congrArg Val.vList (eqList_of_vbeq xs ys h)
  | vList _, vNull, h => by simp [vbeq] at h
  | vList _, vBool _, h => by simp [vbeq] at h
  | vList _, vStr _, h => by simp [vbeq] at h
  | vList _, vInt _, h => by simp [vbeq] at h
  | vList _, vDict _, h => by simp [vbeq] at h
  | vDict xs, vDict ys, h => by
      simp only [vbeq] at h
      exact congrArg Val.vDict (eqDict_of_vbeq xs ys h)
  | vDict _, vNull, h => by simp [vbeq] at h
  | vDict _, vBool _, h => by simp [vbeq] at h
  | vDict _, vStr _, h => by simp [vbeq] at h
  | vDict _, vInt _, h => by simp [vbeq] at h
  | vDict _, vList _, h => by simp [vbeq] at h

theorem eqList_of_vbeq : (xs ys : List Val) → vbeq.listEq xs ys = true → xs = ys
  | [], [], _ => rfl
  | [], _ :: _, h => by simp [vbeq.listEq] at h
  | _ :: _, [], h => by simp [vbeq.listEq] at h
  | x :: xs, y :: ys, h => by
      simp only [vbeq.listEq, Bool.and_eq_true] at h
      rw [eq_of_vbeq x y h.1, eqList_of_vbeq xs ys h.2]

theorem eqDict_of_vbeq : (xs ys : List (Val × Val)) → vbeq.dictEq xs ys = true → xs = ys
  | [], [], _ => rfl
  | [], _ :: _, h => by simp [vbeq.dictEq] at h
  | _ :: _, [], h => by simp [vbeq.dictEq] at h
  | (k, v) :: xs, (k', v') :: ys, h => by
      simp only [vbeq.dictEq, Bool.and_eq_true] at h
      rw [eq_of_vbeq k k' h.1.1, eq_of_vbeq v v' h.1.2, eqDict_of_vbeq xs ys h.2]
end

theorem vbeq_iff_eq (v w : Val) : vbeq v w = true ↔ v = w :=
  ⟨eq_of_vbeq v w, fun h => h ▸ vbeq_refl v⟩

instance : DecidableEq Val := fun v w =>
  decidable_of_iff (vbeq v w = true) (vbeq_iff_eq v w)

/-- A Python dictionary whose keys and values are arbitrary values,
as an insertion-ordered association list. -/
def Item : Type := List (Val × Val)

/-- First entry whose key compares `==` to `k`. -/
def lookupV : List (Val × Val) → Val → Option Val
  | [], _ => none
  | (k', v) :: rest, k => if vbeq k' k then some v else lookupV rest k

/-- Python `item.get(k)` for a string key: the stored value, or `None`
when the key is absent. -/
def pyGet (item : Item) (k : String) : Val := (lookupV item (vStr k)).getD vNull

/-- Python `item.get(k, dflt)` for a string key. -/
def pyGetD (item : Item) (k : String) (dflt : Val) : Val := (lookupV item (vStr k)).getD dflt

/-- Python `d[k] = v`: overwrite in place when the key exists (keeping
its position and original key object), else append at the end. -/
def dictSet : List (Val × Val) → Val → Val → List (Val × Val)
  | [], k, v => [(k, v)]
  | (k', v') :: rest, k, v =>
      if vbeq k' k then (k', v) :: rest else (k', v') :: dictSet rest k v

/-- Python `defaultdict(int)` increment `d[k] += 1` for value keys. -/
def bumpV : List (Val × Nat) → Val → List (Val × Nat)
  | [], k => [(k, 1)]
  | (k', n) :: rest, k =>
      if vbeq k' k then (k', n + 1) :: rest else (k', n) :: bumpV rest k

/-- Count stored under a value key, 0 when absent. -/
def lookupCount : List (Val × Nat) → Val → Nat
  | [], _ => 0
  | (k', n) :: rest, k => if vbeq k' k then n else lookupCount rest k

/-- Python `defaultdict(int)` increment for string keys (used for the
EC2 state histogram, whose keys are always the lowercased state). -/
def bumpS : List (String × Nat) → String → List (String × Nat)
  | [], k => [(k, 1)]
  | (k', n) :: rest, k =>
      if k' = k then (k', n + 1) :: rest else (k', n) :: bumpS rest k

/-- Count stored under a string key, 0 when absent. -/
def lookupCountS : List (String × Nat) → String → Nat
  | [], _ => 0
  | (k', n) :: rest, k => if k' = k then n else lookupCountS rest k

/-- Python `str.lower()` (ASCII case folding, which covers every state
and status string the module compares). -/
def pyLower (s : String) : String := String.mk (s.data.map Char.toLower)

/-- Python `str.strip()`: drop leading and trailing whitespace. -/
def pyStrip (s : String) : String :=
  String.mk (((s.data.dropWhile Char.isWhitespace).reverse.dropWhile Char.isWhitespace).reverse)

/-- Python `str.strip(sub)` for a single character set: drop leading
and trailing underscores, used by the key sanitizer. -/
def stripUnderscores (s : String) : String :=
  String.mk (((s.data.dropWhile (· = '_')).reverse.dropWhile (· = '_')).reverse)

/-- A single-quote character, written by code point to keep the source
free of quote literals. -/
def squote : String := String.singleton (Char.ofNat 39)

/-- Opening brace, by code point. -/
def lbrace : String := String.singleton (Char.ofNat 123)

/-- Closing brace, by code point. -/
def rbrace : String := String.singleton (Char.ofNat 125)

/-- Python `repr` of a value, fuelled by structural size so that the
recursion through nested lists and dictionaries is structural.  Only
`str(value)` on scalars is ever exercised by the claims; the container
cases exist for totality. -/
def pyRepr : Nat → Val → String
  | _, vNull => "None"
  | _, vBool true => "True"
  | _, vBool false => "False"
  | _, vStr s => squote ++ s ++ squote
  | _, vInt n => toString n
  | 0, vList _ => "[]"
  | 0, vDict _ => lbrace ++ rbrace
  | Nat.succ f, vList xs => "[" ++ String.intercalate ", " (xs.map (pyRepr f)) ++ "]"
  | Nat.succ f, vDict xs =>
      lbrace ++
        String.intercalate ", " (xs.map fun p => pyRepr f p.1 ++ ": " ++ pyRepr f p.2) ++
        rbrace

/-- Structural size of a value, used as recursion fuel. -/
def vsize : Val → Nat
  | vNull => 1
  | vBool _ => 1
  | vStr _ => 1
  | vInt _ => 1
  | vList xs => 1 + vsizeList xs
  | vDict xs => 1 + vsizeDict xs
where
  vsizeList : List Val → Nat
    | [] => 0
    | x :: xs => vsize x + vsizeList xs
  vsizeDict : List (Val × Val) → Nat
    | [] => 0
    | (k, v) :: xs => vsize k + vsize v + vsizeDict xs

/-- Python `str(value)`: strings pass through unquoted, everything
else takes its `repr`. -/
def pyStr : Val → String
  | vStr s => s
  | w => pyRepr (vsize w) w

/-- The accumulator helper `_normalize_state`: `None` stays absent,
anything else is stringified, stripped and lowercased, and an empty
result is treated as absent. -/
def _normalize_state (v : Val) : Option String :=
  match v with
  | vNull => none
  | w =>
      let s := pyLower (pyStrip (pyStr w))
      if s = "" then none else some s

/-- Python `(item.get(k) or dflt)` followed by use as a string: the
raw value when truthy, else the default.  A truthy non-string here
would make CPython raise on the subsequent `.lower()`; the embedding
stringifies instead (no claim exercises that corner). -/
def pyStrOr (v : Val) (dflt : String) : String :=
  if truthy v then pyStr v else dflt

section JsonParser

/-- Digits accumulator for the embedded JSON parser. -/
def jsonDigits : Nat → List Char → Nat × List Char
  | acc, c :: rest =>
      if c.isDigit then jsonDigits (acc * 10 + (c.toNat - 48)) rest
      else (acc, c :: rest)
  | acc, [] => (acc, [])

/-- Leading whitespace skip for the embedded JSON parser. -/
def jskip (cs : List Char) : List Char := cs.dropWhile Char.isWhitespace

/-- String body scan for the embedded JSON parser: consume until the
closing double quote, taking the character after a backslash
literally (the `\\uXXXX` escape is simplified to literal characters;
no claim parses JSON strings at all). -/
def jsonStringBody : List Char → Option (List Char × List Char)
  | [] => none
  | c :: rest =>
      if c = '"' then some ([], rest)
      else if c = '\\' then
        match rest with
        | [] => none
        | e :: rest' =>
            let ch := if e = 'n' then '\n' else if e = 't' then '\t'
                      else if e = 'r' then '\r' else e
            match jsonStringBody rest' with
            | some (cs, rem) => some (ch :: cs, rem)
            | none => none
      else
        match jsonStringBody rest with
        | some (cs, rem) => some (c :: cs, rem)
        | none => none

mutual
/-- Value parser of the embedded model of `json.loads`, fuelled by the
input length.  Floats are not modelled (a JSON number with a fraction
or exponent fails to parse); no claim feeds the parser at all — it
exists because `_as_list_or_none` calls `json.loads` on string-typed
attachment fields. -/
def jsonVal : Nat → List Char → Option (Val × List Char)
  | 0, _ => none
  | Nat.succ f, cs =>
      match jskip cs with
      | [] => none
      | c :: rest =>
          if c = 'n' then
            match rest with
            | 'u' :: 'l' :: 'l' :: tl => some (vNull, tl)
            | _ => none
          else if c = 't' then
            match rest with
            | 'r' :: 'u' :: 'e' :: tl => some (vBool true, tl)
            | _ => none
          else if c = 'f' then
            match rest with
            | 'a' :: 'l' :: 's' :: 'e' :: tl => some (vBool false, tl)
            | _ => none
          else if c = '"' then
            match jsonStringBody rest with
            | some (cs', rem) => some (vStr (String.mk cs'), rem)
            | none => none
          else if c = '[' then
            match jskip rest with
            | ']' :: tl => some (vList [], tl)
            | _ =>
                match jsonArrItems f rest with
                | some (xs, rem) => some (vList xs, rem)
                | none => none
          else if c = Char.ofNat 123 then
            match jskip rest with
            | cc :: tl =>
                if cc = Char.ofNat 125 then some (vDict [], tl)
                else
                  match jsonObjItems f rest with
                  | some (xs, rem) => some (vDict xs, rem)
                  | none => none
            | [] => none
          else if c = '-' then
            match rest with
            | d :: _ =>
                if d.isDigit then
                  let (n, rem) := jsonDigits 0 rest
                  match rem with
                  | r :: _ => if r = '.' ∨ r = 'e' ∨ r = 'E' then none
                              else some (vInt (-(n : Int)), rem)
                  | [] => some (vInt (-(n : Int)), [])
                else none
            | [] => none
          else if c.isDigit then
            let (n, rem) := jsonDigits 0 (c :: rest)
            match rem with
            | r :: _ => if r = '.' ∨ r = 'e' ∨ r = 'E' then none
                        else some (vInt (n : Int), rem)
            | [] => some (vInt (n : Int), [])
          else none

/-- Array items of the embedded JSON parser (after the opening
bracket). -/
def jsonArrItems : Nat → List Char → Option (List Val × List Char)
  | 0, _ => none
  | Nat.succ f, cs =>
      match jsonVal f cs with
      | none => none
      | some (v, rem) =>
          match jskip rem with
          | ',' :: tl =>
              match jsonArrItems f tl with
              | some (xs, rem') => some (v :: xs, rem')
              | none => none
          | ']' :: tl => some ([v], tl)
          | _ => none

/-- Object members of the embedded JSON parser (after the opening
brace). -/
def jsonObjItems : Nat → List Char → Option (List (Val × Val) × List Char)
  | 0, _ => none
  | Nat.succ f, cs =>
      match jskip cs with
      | '"' :: rest =>
          match jsonStringBody rest with
          | none => none
          | some (kcs, rem) =>
              match jskip rem with
              | ':' :: tl =>
                  match jsonVal f tl with
                  | none => none
                  | some (v, rem') =>
                      match jskip rem' with
                      | ',' :: tl' =>
                          match jsonObjItems f tl' with
                          | some (xs, rem'') => some ((vStr (String.mk kcs), v) :: xs, rem'')
                          | none => none
                      | cc :: tl' =>
                          if cc = Char.ofNat 125 then some ([(vStr (String.mk kcs), v)], tl')
                          else none
                      | [] => none
              | _ => none
      | _ => none
end

/-- Embedded model of `json.loads`: parse a full value and require
only whitespace to remain. -/
def jsonLoads (s : String) : Option Val :=
  match jsonVal (s.length + 1) s.data with
  | some (v, rest) => if jskip rest = [] then some v else none
  | none => none

end JsonParser

/-- The accumulator helper `_as_list_or_none`: normalize
`None`/string/JSON/list/dict shapes into a list, or `none` when the
shape is indeterminate (an unparsable string). -/
def _as_list_or_none (v : Val) : Option (List Val) :=
  match v with
  | vNull => none
  | vStr s0 =>
      let s := pyStrip s0
      let sl := pyLower s
      if sl = "" ∨ sl = "none" ∨ sl = "null" ∨ sl = "[]" then some []
      else
        match jsonLoads s with
        | some (vList xs) => some xs
        | some _ => some []
        | none => none
  | vList xs => some xs
  | w => some [w]

/-- Round-half-to-even on an exact rational, the rounding mode of
Python 3 `round`.  The binary floating point of the source is
idealized to exact rational arithmetic. -/
def pyRound (q : ℚ) : Int :=
  let f : Int := ⌊q⌋
  let r : ℚ := q - f
  if r < 1 / 2 then f
  else if r > 1 / 2 then f + 1
  else if f % 2 = 0 then f else f + 1

/-- The helper `_safe_pct`: integer percentage `round((numer / denom)
* 100)` guarding divide-by-zero with 0.  Total — the embedding of the
`try`/`except` fallback is that no error can occur on exact
rationals. -/
def _safe_pct (numer denom : Int) : Int :=
  if denom = 0 then 0
  else pyRound ((numer : ℚ) / (denom : ℚ) * 100)

/-- One `{total, healthy}` pair of the `network_health` mapping. -/
structure NetBucket where
  total : Nat
  healthy : Nat
deriving DecidableEq

/-- State of `MetricsAccumulator`: one field per counter, mapping or
set that `reset` initializes.  Mappings keep insertion order as
association lists; `_seen_ebs` is the EBS dedup set. -/
structure MetricsAccumulator where
  resource_counts : List (Val × Nat)
  account_counts : List (Val × Nat)
  region_counts : List (Val × Nat)
  account_names : List (Val × Val)
  regions_collected : List String
  ec2_states : List (String × Nat)
  ec2_health : List (Val × Nat)
  ec2_cw_memory : Nat
  ec2_cw_disk : Nat
  ec2_cw_both : Nat
  ec2_ssm_connected : Nat
  ec2_ssm_notconnected : Nat
  ec2_ssm_notinstalled : Nat
  ec2_total : Nat
  ec2_running : Nat
  ec2_stopped : Nat
  ec2_patch_compliant : Nat
  ec2_patch_noncompliant : Nat
  ec2_patch_unknown : Nat
  rds_total : Nat
  rds_available : Nat
  rds_engines : List (Val × Nat)
  rds_multiaz : Nat
  rds_performance_insights : Nat
  s3_total : Nat
  s3_with_lifecycle : Nat
  efs_total : Nat
  fsx_total : Nat
  backup_plans : Nat
  backup_vaults : Nat
  backup_recovery_points : Nat
  sg_total : Nat
  sg_with_exposed_ports : Nat
  vpc_total : Nat
  subnet_total : Nat
  network_health : List (String × NetBucket)
  ebs_unattached : Nat
  eip_unassociated : Nat
  snapshots_orphaned : Nat
  seen_ebs : List (Val × Val × Val)

/-- The `reset` method: every counter, mapping and set empty or zero,
with the four network-health buckets pre-seeded.  It does not depend
on the previous state, so it is a constant. -/
def resetAcc : MetricsAccumulator where
  resource_counts := []
  account_counts := []
  region_counts := []
  account_names := []
  regions_collected := []
  ec2_states := []
  ec2_health := []
  ec2_cw_memory := 0
  ec2_cw_disk := 0
  ec2_cw_both := 0
  ec2_ssm_connected := 0
  ec2_ssm_notconnected := 0
  ec2_ssm_notinstalled := 0
  ec2_total := 0
  ec2_running := 0
  ec2_stopped := 0
  ec2_patch_compliant := 0
  ec2_patch_noncompliant := 0
  ec2_patch_unknown := 0
  rds_total := 0
  rds_available := 0
  rds_engines := []
  rds_multiaz := 0
  rds_performance_insights := 0
  s3_total := 0
  s3_with_lifecycle := 0
  efs_total := 0
  fsx_total := 0
  backup_plans := 0
  backup_vaults := 0
  backup_recovery_points := 0
  sg_total := 0
  sg_with_exposed_ports := 0
  vpc_total := 0
  subnet_total := 0
  network_health :=
    [("directConnectConnections", ⟨0, 0⟩),
     ("directConnectVirtualInterfaces", ⟨0, 0⟩),
     ("vpnConnections", ⟨0, 0⟩),
     ("transitGateways", ⟨0, 0⟩)]
  ebs_unattached := 0
  eip_unassociated := 0
  snapshots_orphaned := 0
  seen_ebs := []

/-- The `add_collected_region` method: insert a non-empty region into
the collected set, no-op on a falsy (empty) string. -/
def add_collected_region (a : MetricsAccumulator) (region : String) : MetricsAccumulator :=
  if region ≠ "" then
    if region ∈ a.regions_collected then a
    else { a with regions_collected := a.regions_collected ++ [region] }
  else a

/-- The `_increment_network_health` method: create the bucket when
missing (inserted at the end, like a Python dict), then increment its
total and, when healthy, its healthy count. -/
def _increment_network_health (a : MetricsAccumulator) (key : String) (is_healthy : Bool) : MetricsAccumulator :=
  let l := if (a.network_health.lookup key).isSome then a.network_health
           else a.network_health ++ [(key, ⟨0, 0⟩)]
  { a with network_health :=
      l.map fun p =>
        if p.1 = key then
          (p.1, ⟨p.2.total + 1, p.2.healthy + (if is_healthy then 1 else 0)⟩)
        else p }

/-- Scan of the `bgpPeers` list inside
`_is_direct_connect_virtual_interface_healthy`: a peer with a
non-empty `bgpStatus` counts as healthy exactly when it is `"up"`
(and is skipped otherwise, not treated as disqualifying); a peer
without one but with `bgpPeerState == "available"` also counts;
non-dict peers are skipped. -/
def peersAnyUp : List Val → Bool
  | [] => false
  | p :: rest =>
      match p with
      | vDict entries =>
          match _normalize_state (pyGet entries "bgpStatus") with
          | some s => if s = "up" then true else peersAnyUp rest
          | none =>
              match _normalize_state (pyGet entries "bgpPeerState") with
              | some s => if s = "available" then true else peersAnyUp rest
              | none => peersAnyUp rest
      | _ => peersAnyUp rest

/-- The `_is_direct_connect_virtual_interface_healthy` method: an
explicit `bgpAllUp` boolean wins, then `bgpAnyUp`, then the first
non-empty of the three status strings compared to `"up"`, then the
peer scan; an empty record or no verdict at all is unhealthy. -/
def _is_direct_connect_virtual_interface_healthy (item : Item) : Bool :=
  if item.isEmpty then false
  else
    match pyGet item "bgpAllUp" with
    | vBool b => b
    | _ =>
        match pyGet item "bgpAnyUp" with
        | vBool b => b
        | _ =>
            match _normalize_state (pyGet item "bgpStatus") with
            | some s => s = "up"
            | none =>
                match _normalize_state (pyGet item "bgpStatusIpv4") with
                | some s => s = "up"
                | none =>
                    match _normalize_state (pyGet item "bgpStatusIpv6") with
                    | some s => s = "up"
                    | none =>
                        peersAnyUp (match pyGet item "bgpPeers" with
                                    | vList xs => xs
                                    | _ => [])

/-- The `_process_network_resource` method: classify the four tracked
network resource types into their health buckets. -/
def _process_network_resource (a : MetricsAccumulator) (resource_type : Val) (item : Item) : MetricsAccumulator :=
  if vbeq resource_type (vStr "DirectConnectConnection") then
    _increment_network_health a "directConnectConnections"
      (_normalize_state (pyGet item "connectionState") = some "available")
  else if vbeq resource_type (vStr "DirectConnectVirtualInterface") then
    _increment_network_health a "directConnectVirtualInterfaces"
      (_is_direct_connect_virtual_interface_healthy item)
  else if vbeq resource_type (vStr "VPNConnection") then
    _increment_network_health a "vpnConnections"
      (_normalize_state (pyGet item "state") = some "available")
  else if vbeq resource_type (vStr "TransitGateway") then
    _increment_network_health a "transitGateways"
      (_normalize_state (pyGet item "state") = some "available")
  else a

/-- Line `if has_memory:` of the EC2 processor. -/
def ec2CwMemory (has_memory : Bool) (b : MetricsAccumulator) : MetricsAccumulator :=
  if has_memory then { b with ec2_cw_memory := b.ec2_cw_memory + 1 } else b

/-- Line `if has_disk:` of the EC2 processor. -/
def ec2CwDisk (has_disk : Bool) (b : MetricsAccumulator) : MetricsAccumulator :=
  if has_disk then { b with ec2_cw_disk := b.ec2_cw_disk + 1 } else b

/-- Line `if has_memory and has_disk:` of the EC2 processor. -/
def ec2CwBoth (has_memory has_disk : Bool) (b : MetricsAccumulator) : MetricsAccumulator :=
  if has_memory && has_disk then { b with ec2_cw_both := b.ec2_cw_both + 1 } else b

/-- The SSM agent tri-state of the EC2 processor (evaluated only for
running instances): `connected` for `"connected"`/`"online"`,
`notInstalled` for `"notinstalled"` or an empty status, otherwise
`notConnected`. -/
def ec2Ssm (item : Item) (b : MetricsAccumulator) : MetricsAccumulator :=
  let ssm_status := pyLower (pyStrOr (pyGet item "ssmStatus") "")
  if ssm_status = "connected" ∨ ssm_status = "online" then
    { b with ec2_ssm_connected := b.ec2_ssm_connected + 1 }
  else if ssm_status = "notinstalled" ∨ ssm_status = "" then
    { b with ec2_ssm_notinstalled := b.ec2_ssm_notinstalled + 1 }
  else
    { b with ec2_ssm_notconnected := b.ec2_ssm_notconnected + 1 }

/-- The `state == "running"` block of the EC2 processor: running
counter, CloudWatch agent detection, SSM agent status. -/
def ec2Running (item : Item) (a2 : MetricsAccumulator) : MetricsAccumulator :=
  let has_memory := truthy (pyGetD item "cwAgentMemoryDetected" (vBool false))
  let has_disk := truthy (pyGetD item "cwAgentDiskDetected" (vBool false))
  ec2Ssm item
    (ec2CwBoth has_memory has_disk
      (ec2CwDisk has_disk
        (ec2CwMemory has_memory
          { a2 with ec2_running := a2.ec2_running + 1 })))

/-- The patch-compliance tri-state at the end of the EC2 processor. -/
def ec2Patch (item : Item) (a4 : MetricsAccumulator) : MetricsAccumulator :=
  let patch_status := pyLower (pyStrip (pyStrOr (pyGet item "patchCompliance") "Unknown"))
  if patch_status = "compliant" then
    { a4 with ec2_patch_compliant := a4.ec2_patch_compliant + 1 }
  else if patch_status = "noncompliant" ∨ patch_status = "non_compliant" then
    { a4 with ec2_patch_noncompliant := a4.ec2_patch_noncompliant + 1 }
  else
    { a4 with ec2_patch_unknown := a4.ec2_patch_unknown + 1 }

/-- The `ec2_total` increment opening the EC2 processor. -/
def ec2TotalStep (a : MetricsAccumulator) : MetricsAccumulator :=
  { a with ec2_total := a.ec2_total + 1 }

/-- The state-histogram line of the EC2 processor. -/
def ec2StatesStep (state : String) (a1 : MetricsAccumulator) : MetricsAccumulator :=
  { a1 with ec2_states := bumpS a1.ec2_states state }

/-- The `if state == "running" / elif state == "stopped"` dispatch of
the EC2 processor. -/
def ec2StateBlock (item : Item) (state : String) (a2 : MetricsAccumulator) :
    MetricsAccumulator :=
  if state = "running" then ec2Running item a2
  else if state = "stopped" then { a2 with ec2_stopped := a2.ec2_stopped + 1 }
  else a2

/-- The health-histogram line of the EC2 processor (raw value as key,
`"Unknown"` when the key is absent). -/
def ec2HealthStep (item : Item) (a3 : MetricsAccumulator) : MetricsAccumulator :=
  { a3 with ec2_health := bumpV a3.ec2_health (pyGetD item "healthStatus" (vStr "Unknown")) }

/-- The `_process_ec2_item` method, in source order: total, state
histogram, the running-only block (CloudWatch agent flags and the SSM
tri-state), the stopped counter, the health histogram and the
patch-compliance tri-state. -/
def _process_ec2_item (a : MetricsAccumulator) (item : Item) : MetricsAccumulator :=
  let state := pyLower (pyStrOr (pyGet item "instanceState") "unknown")
  ec2Patch item (ec2HealthStep item (ec2StateBlock item state (ec2StatesStep state (ec2TotalStep a))))

/-- Line `if status == "available":` of the RDS processor. -/
def rdsAvailableStep (item : Item) (a1 : MetricsAccumulator) : MetricsAccumulator :=
  let status := pyLower (pyStrOr (pyGet item "status") "")
  if status = "available" then { a1 with rds_available := a1.rds_available + 1 } else a1

/-- The engine histogram line of the RDS processor. -/
def rdsEnginesStep (item : Item) (a2 : MetricsAccumulator) : MetricsAccumulator :=
  { a2 with rds_engines := bumpV a2.rds_engines (pyGetD item "engine" (vStr "unknown")) }

/-- Line `if bool(item.get("multiAZ")):` of the RDS processor. -/
def rdsMultiAzStep (item : Item) (a3 : MetricsAccumulator) : MetricsAccumulator :=
  if truthy (pyGet item "multiAZ") then { a3 with rds_multiaz := a3.rds_multiaz + 1 } else a3

/-- The Performance Insights line of the RDS processor. -/
def rdsPerfStep (item : Item) (a4 : MetricsAccumulator) : MetricsAccumulator :=
  if truthy (pyGet item "performanceInsightsEnabled") then
    { a4 with rds_performance_insights := a4.rds_performance_insights + 1 }
  else a4

/-- The `_process_rds_item` method, in source order. -/
def _process_rds_item (a : MetricsAccumulator) (item : Item) : MetricsAccumulator :=
  rdsPerfStep item
    (rdsMultiAzStep item
      (rdsEnginesStep item
        (rdsAvailableStep item { a with rds_total := a.rds_total + 1 })))

/-- The `_process_s3_item` method. -/
def _process_s3_item (a : MetricsAccumulator) (item : Item) : MetricsAccumulator :=
  let a1 := { a with s3_total := a.s3_total + 1 }
  if truthy (pyGet item "hasLifecycleRules") then
    { a1 with s3_with_lifecycle := a1.s3_with_lifecycle + 1 }
  else a1

/-- The EBS dedup key: `(accountId or "unknown", region or "unknown",
volumeId or id or "unknown")`, in the tuple order of the source. -/
def ebsDedupKey (item : Item) : Val × Val × Val :=
  let vid := pyOr (pyOr (pyGet item "volumeId") (pyGet item "id")) (vStr "unknown")
  let acc := pyOr (pyGet item "accountId") (vStr "unknown")
  let reg := pyOr (pyGet item "region") (vStr "unknown")
  (acc, reg, vid)

/-- Membership of a dedup key in `_seen_ebs`, comparing componentwise
with Python `==`. -/
def seenMem : List (Val × Val × Val) → Val × Val × Val → Bool
  | [], _ => false
  | x :: rest, k =>
      (vbeq x.1 k.1 && vbeq x.2.1 k.2.1 && vbeq x.2.2 k.2.2) || seenMem rest k

/-- The volume-state probe of `_process_ebs_item`: first non-empty
normalized value among the four state field names, in order. -/
def ebsState (item : Item) : Option String :=
  match _normalize_state (pyGet item "status") with
  | some s => some s
  | none =>
      match _normalize_state (pyGet item "state") with
      | some s => some s
      | none =>
          match _normalize_state (pyGet item "volumeStatus") with
          | some s => some s
          | none => _normalize_state (pyGet item "volumeState")

/-- The `_process_ebs_item` method: dedup on the composite key, then
classify — `"available"` counts as unattached; `"in-use"`/`"in_use"`
is attached; with no state at all an attachments list normalized to
exactly the empty list counts as unattached; anything else is
ambiguous and not counted.  Note the attachment sources are combined
with Python `or`, so a falsy value (including an empty native list)
falls through to the next field name. -/
def _process_ebs_item (a : MetricsAccumulator) (item : Item) : MetricsAccumulator :=
  let key := ebsDedupKey item
  if seenMem a.seen_ebs key then a
  else
    let a1 := { a with seen_ebs := a.seen_ebs ++ [key] }
    let state := ebsState item
    let attachments := _as_list_or_none
      (pyOr (pyOr (pyGet item "attachments") (pyGet item "attachedInstances"))
        (pyGet item "attached_instances"))
    if state = some "available" then
      { a1 with ebs_unattached := a1.ebs_unattached + 1 }
    else if state = some "in-use" ∨ state = some "in_use" then a1
    else
      match state, attachments with
      | none, some [] => { a1 with ebs_unattached := a1.ebs_unattached + 1 }
      | _, _ => a1

/-- The `_process_eip_item` method: unassociated when neither
association field is truthy. -/
def _process_eip_item (a : MetricsAccumulator) (item : Item) : MetricsAccumulator :=
  if !truthy (pyGet item "instanceId") && !truthy (pyGet item "networkInterfaceId") then
    { a with eip_unassociated := a.eip_unassociated + 1 }
  else a

/-- The `_process_sg_item` method. -/
def _process_sg_item (a : MetricsAccumulator) (item : Item) : MetricsAccumulator :=
  let a1 := { a with sg_total := a.sg_total + 1 }
  if truthy (pyGet item "hasExposedIngressPorts") then
    { a1 with sg_with_exposed_ports := a1.sg_with_exposed_ports + 1 }
  else a1

/-- The `_process_snapshot_item` placeholder: a documented no-op. -/
def _process_snapshot_item (a : MetricsAccumulator) (_item : Item) : MetricsAccumulator := a

/-- The `resource_counts` line of `add_resource`. -/
def countByType (resource_type : Val) (a : MetricsAccumulator) : MetricsAccumulator :=
  { a with resource_counts := bumpV a.resource_counts resource_type }

/-- The account-counting block of `add_resource`: when `accountId` is
truthy, bump its count and, when `accountName` is also truthy, record
it last-write-wins. -/
def countByAccount (item : Item) (a1 : MetricsAccumulator) : MetricsAccumulator :=
  let account_id := pyGet item "accountId"
  if truthy account_id then
    let b := { a1 with account_counts := bumpV a1.account_counts account_id }
    let account_name := pyGet item "accountName"
    if truthy account_name then
      { b with account_names := dictSet b.account_names account_id account_name }
    else b
  else a1

/-- The region-counting line of `add_resource`: count truthy regions
other than the `"global"` sentinel. -/
def countByRegion (item : Item) (a2 : MetricsAccumulator) : MetricsAccumulator :=
  let region := pyGet item "region"
  if truthy region && !vbeq region (vStr "global") then
    { a2 with region_counts := bumpV a2.region_counts region }
  else a2

/-- The flat-increment tail of the dispatch table of `add_resource`
(the `elif` arms from VPC down, each a single counter increment;
unmatched types fall through with no further effect). -/
def dispatchFlat (resource_type : Val) (a4 : MetricsAccumulator) : MetricsAccumulator :=
  if vbeq resource_type (vStr "VPC") then { a4 with vpc_total := a4.vpc_total + 1 }
  else if vbeq resource_type (vStr "Subnet") then { a4 with subnet_total := a4.subnet_total + 1 }
  else if vbeq resource_type (vStr "EFSFileSystem") then { a4 with efs_total := a4.efs_total + 1 }
  else if vbeq resource_type (vStr "FSxFileSystem") then { a4 with fsx_total := a4.fsx_total + 1 }
  else if vbeq resource_type (vStr "BackupPlan") then { a4 with backup_plans := a4.backup_plans + 1 }
  else if vbeq resource_type (vStr "BackupVault") then { a4 with backup_vaults := a4.backup_vaults + 1 }
  else if vbeq resource_type (vStr "BackupRecoveryPoint") then
    { a4 with backup_recovery_points := a4.backup_recovery_points + 1 }
  else a4

/-- The type-specific dispatch table of `add_resource`, in source
order: the `elif` arms with dedicated processors, then the
flat-increment arms. -/
def dispatchResource (resource_type : Val) (item : Item) (a4 : MetricsAccumulator) :
    MetricsAccumulator :=
  if vbeq resource_type (vStr "EC2Instance") then _process_ec2_item a4 item
  else if vbeq resource_type (vStr "RDSInstance") then _process_rds_item a4 item
  else if vbeq resource_type (vStr "S3Bucket") then _process_s3_item a4 item
  else if vbeq resource_type (vStr "EBSVolume") then _process_ebs_item a4 item
  else if vbeq resource_type (vStr "ElasticIP") then _process_eip_item a4 item
  else if vbeq resource_type (vStr "SecurityGroup") then _process_sg_item a4 item
  else if vbeq resource_type (vStr "EBSSnapshot") || vbeq resource_type (vStr "AMI") then
    _process_snapshot_item a4 item
  else dispatchFlat resource_type a4

/-- The `add_resource` method: silently ignore records without a
truthy `resourceType`; count by type, account (recording the last
seen account name) and non-global region; classify network health;
then dispatch on the type discriminator. -/
def add_resource (a : MetricsAccumulator) (item : Item) : MetricsAccumulator :=
  let resource_type := pyGet item "resourceType"
  if !truthy resource_type then a
  else
    dispatchResource resource_type item
      (_process_network_resource
        (countByRegion item (countByAccount item (countByType resource_type a)))
        resource_type item)

/-- Stable insertion step for `sorted(..., key=count, reverse=True)`:
walking an already-sorted list, a new entry jumps ahead only of
strictly smaller counts, so ties keep their original order exactly as
Python sorted does. -/
def insertCountDesc (x : Val × Nat) : List (Val × Nat) → List (Val × Nat)
  | [] => [x]
  | y :: ys => if x.2 > y.2 then x :: y :: ys else y :: insertCountDesc x ys

/-- Python `sorted(items, key=count, reverse=True)` (stable). -/
def sortCountDesc (l : List (Val × Nat)) : List (Val × Nat) :=
  l.foldl (fun acc x => insertCountDesc x acc) []

/-- Python `dict(counter)` rendered as a value, for value keys. -/
def countsToVal (l : List (Val × Nat)) : Val :=
  vDict (l.map fun p => (p.1, vInt p.2))

/-- Python `dict(counter)` rendered as a value, for string keys. -/
def countsSToVal (l : List (String × Nat)) : Val :=
  vDict (l.map fun p => (vStr p.1, vInt p.2))

/-- Sum of the values of a counter mapping. -/
def sumCounts (l : List (Val × Nat)) : Nat :=
  l.foldl (fun s p => s + p.2) 0

/-- The `_build_network_health_metrics` method: per bucket, the raw
total and healthy counts plus derived unhealthy (floored at 0) and
healthy percentage. -/
def _build_network_health_metrics (a : MetricsAccumulator) : Val :=
  vDict (a.network_health.map fun p =>
    (vStr p.1, vDict
      [(vStr "total", vInt p.2.total),
       (vStr "healthy", vInt p.2.healthy),
       (vStr "unhealthy", vInt (max ((p.2.total : Int) - (p.2.healthy : Int)) 0)),
       (vStr "healthyPercentage", vInt (_safe_pct p.2.healthy p.2.total))]))

/-- The `get_metrics` method: the nested snapshot dictionary.  The
`ec2` and `rds` keys are bound to `None` (absent section) when the
corresponding total is zero, exactly as the Python locals initialized
to `None` are; every other section is always a populated
dictionary. -/
def get_metrics (a : MetricsAccumulator) : Val :=
  let total_resources := sumCounts a.resource_counts
  let account_dist := vList ((sortCountDesc a.account_counts).map fun p =>
    vDict [(vStr "accountId", p.1),
           (vStr "accountName", (lookupV a.account_names p.1).getD p.1),
           (vStr "count", vInt p.2)])
  let region_dist := vList ((sortCountDesc a.region_counts).map fun p =>
    vDict [(vStr "region", p.1), (vStr "count", vInt p.2)])
  let network_metrics := _build_network_health_metrics a
  let global_metrics := vDict
    [(vStr "totalResources", vInt total_resources),
     (vStr "resourceCounts", countsToVal a.resource_counts),
     (vStr "accountDistribution", account_dist),
     (vStr "regionDistribution", region_dist),
     (vStr "regionsCollected", vInt a.regions_collected.length),
     (vStr "resourceRegionsFound", vInt a.region_counts.length),
     (vStr "networkHealth", network_metrics)]
  let ec2_metrics :=
    if a.ec2_total > 0 then
      vDict
        [(vStr "total", vInt a.ec2_total),
         (vStr "byState", countsSToVal a.ec2_states),
         (vStr "healthStatus", countsToVal a.ec2_health),
         (vStr "cloudwatchAgent", vDict
           [(vStr "memoryMonitoring", vInt a.ec2_cw_memory),
            (vStr "diskMonitoring", vInt a.ec2_cw_disk),
            (vStr "bothEnabled", vInt a.ec2_cw_both),
            (vStr "noneEnabled",
              vInt (max ((a.ec2_running : Int) - max (a.ec2_cw_memory : Int) (a.ec2_cw_disk : Int)) 0)),
            (vStr "percentageWithMemory", vInt (_safe_pct a.ec2_cw_memory a.ec2_running)),
            (vStr "percentageWithDisk", vInt (_safe_pct a.ec2_cw_disk a.ec2_running))]),
         (vStr "ssmAgent", vDict
           [(vStr "connected", vInt a.ec2_ssm_connected),
            (vStr "notConnected", vInt a.ec2_ssm_notconnected),
            (vStr "notInstalled", vInt a.ec2_ssm_notinstalled),
            (vStr "percentageConnected", vInt (_safe_pct a.ec2_ssm_connected a.ec2_running))]),
         (vStr "patchCompliance", vDict
           [(vStr "compliant", vInt a.ec2_patch_compliant),
            (vStr "nonCompliant", vInt a.ec2_patch_noncompliant),
            (vStr "unknown", vInt a.ec2_patch_unknown),
            (vStr "percentageCompliant", vInt (_safe_pct a.ec2_patch_compliant a.ec2_total))])]
    else vNull
  let rds_metrics :=
    if a.rds_total > 0 then
      vDict
        [(vStr "total", vInt a.rds_total),
         (vStr "available", vInt a.rds_available),
         (vStr "engines", countsToVal a.rds_engines),
         (vStr "multiAZ", vInt a.rds_multiaz),
         (vStr "performanceInsights", vInt a.rds_performance_insights),
         (vStr "percentageMultiAZ", vInt (_safe_pct a.rds_multiaz a.rds_total)),
         (vStr "percentageWithPerfInsights", vInt (_safe_pct a.rds_performance_insights a.rds_total))]
    else vNull
  let storage_metrics := vDict
    [(vStr "s3Buckets", vInt a.s3_total),
     (vStr "s3WithLifecycle", vInt a.s3_with_lifecycle),
     (vStr "s3WithoutLifecycle", vInt (max ((a.s3_total : Int) - (a.s3_with_lifecycle : Int)) 0)),
     (vStr "ebsVolumes", vInt (lookupCount a.resource_counts (vStr "EBSVolume"))),
     (vStr "ebsSnapshots", vInt (lookupCount a.resource_counts (vStr "EBSSnapshot"))),
     (vStr "amiSnapshots", vInt (lookupCount a.resource_counts (vStr "AMI"))),
     (vStr "efsFileSystems", vInt a.efs_total),
     (vStr "fsxFileSystems", vInt a.fsx_total),
     (vStr "backupPlans", vInt a.backup_plans),
     (vStr "backupVaults", vInt a.backup_vaults),
     (vStr "backupRecoveryPoints", vInt a.backup_recovery_points)]
  let unattached_metrics := vDict
    [(vStr "unattachedEBSVolumes", vInt a.ebs_unattached),
     (vStr "unassociatedElasticIPs", vInt a.eip_unassociated)]
  let security_metrics := vDict
    [(vStr "securityGroups", vInt a.sg_total),
     (vStr "exposedSecurityGroups", vInt a.sg_with_exposed_ports),
     (vStr "percentageExposed", vInt (_safe_pct a.sg_with_exposed_ports a.sg_total))]
  vDict
    [(vStr "global", global_metrics),
     (vStr "ec2", ec2_metrics),
     (vStr "rds", rds_metrics),
     (vStr "storage", storage_metrics),
     (vStr "unattached", unattached_metrics),
     (vStr "security", security_metrics),
     (vStr "network", network_metrics)]

/-- The `_sanitize_flat_key` helper: `None` becomes `"unknown"`; any
other key is stringified, every character that is not alphanumeric or
an underscore becomes an underscore, leading and trailing underscores
are stripped, and an empty result becomes `"value"`. -/
def _sanitize_flat_key (key : Val) : String :=
  match key with
  | vNull => "unknown"
  | w =>
      let text := pyStr w
      let sanitized := String.mk (text.data.map fun ch =>
        if ch.isAlphanum || ch = '_' then ch else '_')
      let stripped := stripUnderscores sanitized
      if stripped = "" then "value" else stripped

mutual
/-- The pair loop of `flatten_metric`, fuelled (the source recursion
is on the Python call stack; any fuel at least the structural size of
the data is enough, and `flatten_metric` below supplies it).  Nested
dictionaries recurse with the extended prefix, lists go through the
element loop, scalars are stored under the prefixed key. -/
def flattenPairs : Nat → List (Val × Val) → List (Val × Val) → String → List (Val × Val)
  | _, target, [], _ => target
  | 0, target, _ :: _, _ => target
  | Nat.succ f, target, (k, v) :: rest, pfx =>
      let sanitized_key := _sanitize_flat_key k
      let new_key := if pfx ≠ "" then pfx ++ "_" ++ sanitized_key else sanitized_key
      let target' :=
        match v with
        | vDict d => flattenPairs f target d new_key
        | vList elems => flattenElems f target new_key 0 elems
        | w => dictSet target (vStr new_key) w
      flattenPairs f target' rest pfx

/-- The list loop of `flatten_metric`: element dictionaries recurse
under the index-suffixed key, element lists are re-wrapped under a
synthetic single-key dictionary keyed by the index (as the source
does), scalar elements are stored under the index-suffixed key. -/
def flattenElems : Nat → List (Val × Val) → String → Nat → List Val → List (Val × Val)
  | _, target, _, _, [] => target
  | 0, target, _, _, _ :: _ => target
  | Nat.succ f, target, new_key, i, elem :: rest =>
      let indexed_key := new_key ++ "_" ++ toString i
      let target' :=
        match elem with
        | vDict d => flattenPairs f target d indexed_key
        | vList l => flattenPairs f target [(vStr (toString i), vList l)] new_key
        | w => dictSet target (vStr indexed_key) w
      flattenElems f target' new_key (i + 1) rest
end

/-- The `flatten_metric` function: merge the nested dictionary `data`
into `target` under underscore-joined sanitized keys.  A falsy or
non-dictionary `data` contributes nothing (the source iterates
`(data or {}).items()`). -/
def flatten_metric (target : List (Val × Val)) (data : Val) (pfx : String) : List (Val × Val) :=
  flattenPairs (2 * vsize data + 2) target
    (match data with | vDict xs => xs | _ => []) pfx

/-- Dictionary read on a value, with default: `m.get(k, dflt)` where
`m` is known to the source to be a dictionary. -/
def dGetD (m : Val) (k : String) (dflt : Val) : Val :=
  match m with
  | vDict xs => (lookupV xs (vStr k)).getD dflt
  | _ => dflt

/-- Dictionary read on a value: `m.get(k)`. -/
def dGet (m : Val) (k : String) : Val := dGetD m k vNull

/-- Python `dict.update(src)`: assign every pair of `src` into the
target, in order. -/
def updateAll (tgt : List (Val × Val)) (src : List (Val × Val)) : List (Val × Val) :=
  src.foldl (fun t p => dictSet t p.1 p.2) tgt

/-- Python `int(x)` restricted to the integer-or-boolean values the
dashboard metrics contain (a non-numeric value would raise in
CPython; the embedding returns 0). -/
def pyInt (v : Val) : Val :=
  match v with
  | vInt n => vInt n
  | vBool b => vInt (if b then 1 else 0)
  | _ => vInt 0

/-- The `_include_section` inner helper of `save_metrics_to_dynamodb`:
when the section payload is truthy, flatten it under the prefix and
merge it into the item. -/
def includeSection (di : List (Val × Val)) (metrics : Val) (source_key pfx : String) :
    List (Val × Val) :=
  let section_payload := dGet metrics source_key
  if truthy section_payload then updateAll di (flatten_metric [] section_payload pfx)
  else di

/-- The construction of the "current" dashboard item in
`save_metrics_to_dynamodb`, in source order.  The wall-clock values
(`date_str_iso`, `date_str_br`, `iso_timestamp`) and the rounded
processing duration come from external collaborators
(`datetime.now`/`strftime` and `format_aws_datetime` from
`collectors.base`, which is outside this module) and are passed in as
parameters. -/
def buildDashboardItem (metrics : Val) (date_str_iso date_str_br iso_timestamp : String)
    (duration : Val) : List (Val × Val) :=
  let dashboard_item : List (Val × Val) :=
    [(vStr "id", vStr "METRIC_DASHBOARD_CURRENT"),
     (vStr "resourceType", vStr "METRICS_DASHBOARD"),
     (vStr "accountId", vStr "GLOBAL"),
     (vStr "accountName", vStr "Metrics Dashboard"),
     (vStr "region", vStr "global"),
     (vStr "metricDate", vStr date_str_iso),
     (vStr "metricDateKey", vStr date_str_br),
     (vStr "isMetric", vBool true),
     (vStr "createdAt", vStr iso_timestamp),
     (vStr "updatedAt", vStr iso_timestamp),
     (vStr "processingDurationSeconds", duration)]
  let global_metrics := pyOr (dGetD metrics "global" (vDict [])) (vDict [])
  let di := dictSet dashboard_item (vStr "accountDistribution")
    (dGetD global_metrics "accountDistribution" (vList []))
  let di := dictSet di (vStr "regionDistribution")
    (dGetD global_metrics "regionDistribution" (vList []))
  let global_flat := flatten_metric [] (vDict
    [(vStr "totalResources", dGetD global_metrics "totalResources" (vInt 0)),
     (vStr "resourceCounts", dGetD global_metrics "resourceCounts" (vDict [])),
     (vStr "regionsCollected", dGetD global_metrics "regionsCollected" (vInt 0)),
     (vStr "resourceRegionsFound", dGetD global_metrics "resourceRegionsFound" (vInt 0)),
     (vStr "networkHealth", dGetD global_metrics "networkHealth" (vDict []))]) ""
  let di := updateAll di global_flat
  let ec2_section := dGet metrics "ec2"
  let di :=
    if truthy ec2_section then
      let di := dictSet di (vStr "ec2_byState") (dGetD ec2_section "byState" (vDict []))
      let di := dictSet di (vStr "ec2_healthStatus") (dGetD ec2_section "healthStatus" (vDict []))
      let patch := pyOr (dGetD ec2_section "patchCompliance" (vDict [])) (vDict [])
      let di := dictSet di (vStr "ec2_ssm_compliant") (pyInt (dGetD patch "compliant" (vInt 0)))
      let di := dictSet di (vStr "ec2_ssm_not_compliant") (pyInt (dGetD patch "nonCompliant" (vInt 0)))
      dictSet di (vStr "ec2_ssm_unknown") (pyInt (dGetD patch "unknown" (vInt 0)))
    else di
  let di := includeSection di metrics "ec2" "ec2"
  let rds_section := dGet metrics "rds"
  let di :=
    if truthy rds_section then
      dictSet di (vStr "rds_engines") (dGetD rds_section "engines" (vDict []))
    else di
  let di := includeSection di metrics "rds" "rds"
  let di := includeSection di metrics "storage" "storage"
  let di := includeSection di metrics "unattached" "unattached"
  let di := includeSection di metrics "security" "security"
  let network_health := pyOr (dGetD global_metrics "networkHealth" (vDict [])) (vDict [])
  let nh_pairs := match network_health with | vDict xs => xs | _ => []
  nh_pairs.foldl (fun t bv =>
    match bv.2 with
    | vDict values =>
        values.foldl (fun t2 mv =>
          dictSet t2
            (vStr ("networkHealth_" ++ _sanitize_flat_key bv.1 ++ "_" ++ _sanitize_flat_key mv.1))
            mv.2) t
    | _ => t) di

/-- The "dated/archived" item: a shallow copy of the current item
with its `id` replaced by the date-suffixed identity and the
`isLatest`/`isArchive` flags set. -/
def datedItemOf (dashboard_item : List (Val × Val)) (date_str_br : String) : List (Val × Val) :=
  let d := dictSet dashboard_item (vStr "id") (vStr ("METRICS_DASHBOARD_" ++ date_str_br))
  let d := dictSet d (vStr "isLatest") (vBool false)
  dictSet d (vStr "isArchive") (vBool true)

/-- The `items_to_save` list of `save_metrics_to_dynamodb`: the
current item followed by the dated item. -/
def items_to_save (metrics : Val) (date_str_iso date_str_br iso_timestamp : String)
    (duration : Val) : List (List (Val × Val)) :=
  let dashboard_item := buildDashboardItem metrics date_str_iso date_str_br iso_timestamp duration
  [dashboard_item, datedItemOf dashboard_item date_str_br]

/-- The `save_metrics_to_dynamodb` function.  The batch-write
collaborator (`batch_write_to_dynamodb` from `collectors.base`,
outside this module) is a parameter returning either a written count
or an exception value; the per-table `try`/`except` of the source
becomes the match on that result: a failure leaves the running
`total_saved` untouched and the loop continues with the remaining
tables, so no exception ever escapes and the function returns the
count of the last successful write (0 when none succeeded). -/
def save_metrics_to_dynamodb {τ ε : Type} (batch_write : τ → List (List (Val × Val)) → Except ε Nat)
    (metrics_tables : List τ) (metrics : Val)
    (date_str_iso date_str_br iso_timestamp : String) (duration : Val) : Nat :=
  let items := items_to_save metrics date_str_iso date_str_br iso_timestamp duration
  metrics_tables.foldl
    (fun total_saved table =>
      match batch_write table items with
      | Except.ok count => count
      | Except.error _ => total_saved)
    0


/-- Predicate: a state transform leaves the EBS dedup fields
(`ebs_unattached`, `_seen_ebs`) untouched. -/
def ebsQuiet (f : MetricsAccumulator → MetricsAccumulator) : Prop :=
  ∀ a : MetricsAccumulator,
    (f a).ebs_unattached = a.ebs_unattached ∧ (f a).seen_ebs = a.seen_ebs

/-- Predicate: a state transform leaves the eight EC2 partition
counters untouched. -/
def ec2Quiet (f : MetricsAccumulator → MetricsAccumulator) : Prop :=
  ∀ a : MetricsAccumulator,
    (f a).ec2_ssm_connected = a.ec2_ssm_connected ∧
    (f a).ec2_ssm_notconnected = a.ec2_ssm_notconnected ∧
    (f a).ec2_ssm_notinstalled = a.ec2_ssm_notinstalled ∧
    (f a).ec2_running = a.ec2_running ∧
    (f a).ec2_total = a.ec2_total ∧
    (f a).ec2_patch_compliant = a.ec2_patch_compliant ∧
    (f a).ec2_patch_noncompliant = a.ec2_patch_noncompliant ∧
    (f a).ec2_patch_unknown = a.ec2_patch_unknown

/-- Predicate: a state transform leaves the EC2 state histogram, the
SSM connected counter and the patch compliant counter untouched. -/
def c5Quiet (f : MetricsAccumulator → MetricsAccumulator) : Prop :=
  ∀ a : MetricsAccumulator,
    (f a).ec2_states = a.ec2_states ∧
    (f a).ec2_ssm_connected = a.ec2_ssm_connected ∧
    (f a).ec2_patch_compliant = a.ec2_patch_compliant

/-- The two partition equations of the EC2 counters: the SSM buckets
partition the running instances and the patch buckets partition all
instances. -/
def InvSums (a : MetricsAccumulator) : Prop :=
  a.ec2_ssm_connected + a.ec2_ssm_notconnected + a.ec2_ssm_notinstalled = a.ec2_running ∧
  a.ec2_patch_compliant + a.ec2_patch_noncompliant + a.ec2_patch_unknown = a.ec2_total

theorem inh_ebsQuiet (key : String) (h : Bool) :
    ebsQuiet (fun a => _increment_network_health a key h) := by
  intro a; unfold _increment_network_health; exact ⟨rfl, rfl⟩

theorem inh_ec2Quiet (key : String) (h : Bool) :
    ec2Quiet (fun a => _increment_network_health a key h) := by
  intro a; unfold _increment_network_health
  exact ⟨rfl, rfl, rfl, rfl, rfl, rfl, rfl, rfl⟩

theorem inh_c5Quiet (key : String) (h : Bool) :
    c5Quiet (fun a => _increment_network_health a key h) := by
  intro a; unfold _increment_network_health; exact ⟨rfl, rfl, rfl⟩

theorem network_ebsQuiet (rt : Val) (item : Item) :
    ebsQuiet (fun a => _process_network_resource a rt item) := by
  intro a; unfold _process_network_resource
  split_ifs <;> exact ⟨rfl, rfl⟩

theorem network_ec2Quiet (rt : Val) (item : Item) :
    ec2Quiet (fun a => _process_network_resource a rt item) := by
  intro a; unfold _process_network_resource
  split_ifs <;> exact ⟨rfl, rfl, rfl, rfl, rfl, rfl, rfl, rfl⟩

theorem network_c5Quiet (rt : Val) (item : Item) :
    c5Quiet (fun a => _process_network_resource a rt item) := by
  intro a; unfold _process_network_resource
  split_ifs <;> exact ⟨rfl, rfl, rfl⟩

theorem countByType_ebsQuiet (rt : Val) : ebsQuiet (countByType rt) := by
  intro a; unfold countByType; exact ⟨rfl, rfl⟩

theorem countByType_ec2Quiet (rt : Val) : ec2Quiet (countByType rt) := by
  intro a; unfold countByType; exact ⟨rfl, rfl, rfl, rfl, rfl, rfl, rfl, rfl⟩

theorem countByType_c5Quiet (rt : Val) : c5Quiet (countByType rt) := by
  intro a; unfold countByType; exact ⟨rfl, rfl, rfl⟩

theorem countByAccount_ebsQuiet (item : Item) : ebsQuiet (countByAccount item) := by
  intro a; simp only [countByAccount]; split_ifs <;> exact ⟨rfl, rfl⟩

theorem countByAccount_ec2Quiet (item : Item) : ec2Quiet (countByAccount item) := by
  intro a; simp only [countByAccount]
  split_ifs <;> exact ⟨rfl, rfl, rfl, rfl, rfl, rfl, rfl, rfl⟩

theorem countByAccount_c5Quiet (item : Item) : c5Quiet (countByAccount item) := by
  intro a; simp only [countByAccount]; split_ifs <;> exact ⟨rfl, rfl, rfl⟩

theorem countByRegion_ebsQuiet (item : Item) : ebsQuiet (countByRegion item) := by
  intro a; simp only [countByRegion]; split_ifs <;> exact ⟨rfl, rfl⟩

theorem countByRegion_ec2Quiet (item : Item) : ec2Quiet (countByRegion item) := by
  intro a; simp only [countByRegion]
  split_ifs <;> exact ⟨rfl, rfl, rfl, rfl, rfl, rfl, rfl, rfl⟩

theorem countByRegion_c5Quiet (item : Item) : c5Quiet (countByRegion item) := by
  intro a; simp only [countByRegion]; split_ifs <;> exact ⟨rfl, rfl, rfl⟩

theorem ec2CwMemory_ebsQuiet (hm : Bool) : ebsQuiet (ec2CwMemory hm) := by
  intro a; unfold ec2CwMemory; split_ifs <;> exact ⟨rfl, rfl⟩

theorem ec2CwDisk_ebsQuiet (hd : Bool) : ebsQuiet (ec2CwDisk hd) := by
  intro a; unfold ec2CwDisk; split_ifs <;> exact ⟨rfl, rfl⟩

theorem ec2CwBoth_ebsQuiet (hm hd : Bool) : ebsQuiet (ec2CwBoth hm hd) := by
  intro a; unfold ec2CwBoth; split_ifs <;> exact ⟨rfl, rfl⟩

theorem ec2Ssm_ebsQuiet (item : Item) : ebsQuiet (ec2Ssm item) := by
  intro a; simp only [ec2Ssm]; split_ifs <;> exact ⟨rfl, rfl⟩

theorem ec2Running_ebsQuiet (item : Item) : ebsQuiet (ec2Running item) := by
  intro a
  simp only [ec2Running]
  constructor
  · rw [(ec2Ssm_ebsQuiet item _).1, (ec2CwBoth_ebsQuiet _ _ _).1,
        (ec2CwDisk_ebsQuiet _ _).1, (ec2CwMemory_ebsQuiet _ _).1]
  · rw [(ec2Ssm_ebsQuiet item _).2, (ec2CwBoth_ebsQuiet _ _ _).2,
        (ec2CwDisk_ebsQuiet _ _).2, (ec2CwMemory_ebsQuiet _ _).2]

theorem ec2TotalStep_ebsQuiet : ebsQuiet ec2TotalStep := by
  intro a; unfold ec2TotalStep; exact ⟨rfl, rfl⟩

theorem ec2StatesStep_ebsQuiet (st : String) : ebsQuiet (ec2StatesStep st) := by
  intro a; unfold ec2StatesStep; exact ⟨rfl, rfl⟩

theorem ec2StateBlock_ebsQuiet (item : Item) (st : String) :
    ebsQuiet (ec2StateBlock item st) := by
  intro a; simp only [ec2StateBlock]
  split_ifs <;> first
    | exact ⟨rfl, rfl⟩
    | exact ec2Running_ebsQuiet item a

theorem ec2HealthStep_ebsQuiet (item : Item) : ebsQuiet (ec2HealthStep item) := by
  intro a; unfold ec2HealthStep; exact ⟨rfl, rfl⟩

theorem ec2Patch_ebsQuiet (item : Item) : ebsQuiet (ec2Patch item) := by
  intro a; simp only [ec2Patch]; split_ifs <;> exact ⟨rfl, rfl⟩

theorem process_ec2_ebsQuiet (item : Item) :
    ebsQuiet (fun a => _process_ec2_item a item) := by
  intro a
  simp only [_process_ec2_item]
  constructor
  · rw [(ec2Patch_ebsQuiet item _).1, (ec2HealthStep_ebsQuiet item _).1,
        (ec2StateBlock_ebsQuiet item _ _).1, (ec2StatesStep_ebsQuiet _ _).1,
        (ec2TotalStep_ebsQuiet _).1]
  · rw [(ec2Patch_ebsQuiet item _).2, (ec2HealthStep_ebsQuiet item _).2,
        (ec2StateBlock_ebsQuiet item _ _).2, (ec2StatesStep_ebsQuiet _ _).2,
        (ec2TotalStep_ebsQuiet _).2]

theorem rdsAvailableStep_ebsQuiet (item : Item) : ebsQuiet (rdsAvailableStep item) := by
  intro a; simp only [rdsAvailableStep]; split_ifs <;> exact ⟨rfl, rfl⟩

theorem rdsEnginesStep_ebsQuiet (item : Item) : ebsQuiet (rdsEnginesStep item) := by
  intro a; unfold rdsEnginesStep; exact ⟨rfl, rfl⟩

theorem rdsMultiAzStep_ebsQuiet (item : Item) : ebsQuiet (rdsMultiAzStep item) := by
  intro a; unfold rdsMultiAzStep; split_ifs <;> exact ⟨rfl, rfl⟩

theorem rdsPerfStep_ebsQuiet (item : Item) : ebsQuiet (rdsPerfStep item) := by
  intro a; unfold rdsPerfStep; split_ifs <;> exact ⟨rfl, rfl⟩

theorem process_rds_ebsQuiet (item : Item) :
    ebsQuiet (fun a => _process_rds_item a item) := by
  intro a
  simp only [_process_rds_item]
  constructor
  · rw [(rdsPerfStep_ebsQuiet item _).1, (rdsMultiAzStep_ebsQuiet item _).1,
        (rdsEnginesStep_ebsQuiet item _).1, (rdsAvailableStep_ebsQuiet item _).1]
  · rw [(rdsPerfStep_ebsQuiet item _).2, (rdsMultiAzStep_ebsQuiet item _).2,
        (rdsEnginesStep_ebsQuiet item _).2, (rdsAvailableStep_ebsQuiet item _).2]

theorem process_rds_ec2Quiet (item : Item) :
    ec2Quiet (fun a => _process_rds_item a item) := by
  intro a
  simp only [_process_rds_item, rdsPerfStep, rdsMultiAzStep, rdsEnginesStep, rdsAvailableStep]
  split_ifs <;> exact ⟨rfl, rfl, rfl, rfl, rfl, rfl, rfl, rfl⟩

theorem process_rds_c5Quiet (item : Item) :
    c5Quiet (fun a => _process_rds_item a item) := by
  intro a
  simp only [_process_rds_item, rdsPerfStep, rdsMultiAzStep, rdsEnginesStep, rdsAvailableStep]
  split_ifs <;> exact ⟨rfl, rfl, rfl⟩

theorem process_s3_ebsQuiet (item : Item) :
    ebsQuiet (fun a => _process_s3_item a item) := by
  intro a; simp only [_process_s3_item]; split_ifs <;> exact ⟨rfl, rfl⟩

theorem process_s3_ec2Quiet (item : Item) :
    ec2Quiet (fun a => _process_s3_item a item) := by
  intro a; simp only [_process_s3_item]
  split_ifs <;> exact ⟨rfl, rfl, rfl, rfl, rfl, rfl, rfl, rfl⟩

theorem process_eip_ebsQuiet (item : Item) :
    ebsQuiet (fun a => _process_eip_item a item) := by
  intro a; simp only [_process_eip_item]; split_ifs <;> exact ⟨rfl, rfl⟩

theorem process_eip_ec2Quiet (item : Item) :
    ec2Quiet (fun a => _process_eip_item a item) := by
  intro a; simp only [_process_eip_item]
  split_ifs <;> exact ⟨rfl, rfl, rfl, rfl, rfl, rfl, rfl, rfl⟩

theorem process_sg_ebsQuiet (item : Item) :
    ebsQuiet (fun a => _process_sg_item a item) := by
  intro a; simp only [_process_sg_item]; split_ifs <;> exact ⟨rfl, rfl⟩

theorem process_sg_ec2Quiet (item : Item) :
    ec2Quiet (fun a => _process_sg_item a item) := by
  intro a; simp only [_process_sg_item]
  split_ifs <;> exact ⟨rfl, rfl, rfl, rfl, rfl, rfl, rfl, rfl⟩

theorem process_snapshot_ebsQuiet (item : Item) :
    ebsQuiet (fun a => _process_snapshot_item a item) := by
  intro a; exact ⟨rfl, rfl⟩

theorem process_snapshot_ec2Quiet (item : Item) :
    ec2Quiet (fun a => _process_snapshot_item a item) := by
  intro a; exact ⟨rfl, rfl, rfl, rfl, rfl, rfl, rfl, rfl⟩

theorem process_ebs_ec2Quiet (item : Item) :
    ec2Quiet (fun a => _process_ebs_item a item) := by
  intro a; simp only [_process_ebs_item]
  split_ifs <;> first
    | exact ⟨rfl, rfl, rfl, rfl, rfl, rfl, rfl, rfl⟩
    | (split <;> exact ⟨rfl, rfl, rfl, rfl, rfl, rfl, rfl, rfl⟩)

theorem seenMem_append_self (l : List (Val × Val × Val)) (k : Val × Val × Val) :
    seenMem (l ++ [k]) k = true := by
  induction l with
  | nil => simp [seenMem, vbeq_refl]
  | cons x rest ih => simp [seenMem, ih]

/-- An EBS record whose dedup key is already in `_seen_ebs` is a
no-op for the EBS processor (the early return). -/
theorem process_ebs_noop_of_seen (a : MetricsAccumulator) (item : Item)
    (h : seenMem a.seen_ebs (ebsDedupKey item) = true) :
    _process_ebs_item a item = a := by
  simp only [_process_ebs_item, h, if_true]

/-- After the EBS processor runs, the dedup key of the record is in
`_seen_ebs` (either it already was, or it was just inserted). -/
theorem process_ebs_seen_after (a : MetricsAccumulator) (item : Item) :
    seenMem (_process_ebs_item a item).seen_ebs (ebsDedupKey item) = true := by
  simp only [_process_ebs_item]
  split_ifs with h1 h2 h3
  · exact h1
  · exact seenMem_append_self _ _
  · exact seenMem_append_self _ _
  · split <;> exact seenMem_append_self _ _

theorem dispatchFlat_ebsQuiet (rt : Val) : ebsQuiet (dispatchFlat rt) := by
  intro a
  unfold dispatchFlat
  split_ifs <;> exact ⟨rfl, rfl⟩

theorem dispatchFlat_ec2Quiet (rt : Val) : ec2Quiet (dispatchFlat rt) := by
  intro a
  unfold dispatchFlat
  split_ifs <;> exact ⟨rfl, rfl, rfl, rfl, rfl, rfl, rfl, rfl⟩

theorem dispatch_ebsQuiet (rt : Val) (item : Item)
    (h : vbeq rt (vStr "EBSVolume") = false) :
    ebsQuiet (dispatchResource rt item) := by
  intro a
  unfold dispatchResource
  rw [h]
  split_ifs <;> first
    | exact (by assumption : False).elim
    | exact dispatchFlat_ebsQuiet rt a
    | exact process_ec2_ebsQuiet item a
    | exact process_rds_ebsQuiet item a
    | exact process_s3_ebsQuiet item a
    | exact process_eip_ebsQuiet item a
    | exact process_sg_ebsQuiet item a
    | exact process_snapshot_ebsQuiet item a

/-- Any `add_resource` call whose record has a dedup key already in
`_seen_ebs` leaves the unattached counter unchanged (regardless of
the resource type: non-EBS types never touch it, and an EBS record
hits the early return). -/
theorem add_resource_unattached_of_seen (a : MetricsAccumulator) (item : Item)
    (h : seenMem a.seen_ebs (ebsDedupKey item) = true) :
    (add_resource a item).ebs_unattached = a.ebs_unattached := by
  simp only [add_resource]
  split_ifs with h0
  · rfl
  · by_cases hEBS : vbeq (pyGet item "resourceType") (vStr "EBSVolume") = true
    · have hrt : pyGet item "resourceType" = vStr "EBSVolume" := eq_of_vbeq _ _ hEBS
      rw [hrt]
      have h1 : vbeq (vStr "EBSVolume") (vStr "EC2Instance") = false := by decide
      have h2 : vbeq (vStr "EBSVolume") (vStr "RDSInstance") = false := by decide
      have h3 : vbeq (vStr "EBSVolume") (vStr "S3Bucket") = false := by decide
      have h4 : vbeq (vStr "EBSVolume") (vStr "EBSVolume") = true := by decide
      simp only [dispatchResource, h1, h2, h3, h4, Bool.false_eq_true, if_false, if_true]
      have hseen :
          (_process_network_resource
            (countByRegion item (countByAccount item (countByType (vStr "EBSVolume") a)))
            (vStr "EBSVolume") item).seen_ebs = a.seen_ebs := by
        rw [(network_ebsQuiet _ item _).2, (countByRegion_ebsQuiet item _).2,
            (countByAccount_ebsQuiet item _).2, (countByType_ebsQuiet _ _).2]
      rw [process_ebs_noop_of_seen _ item (by rw [hseen]; exact h)]
      rw [(network_ebsQuiet _ item _).1, (countByRegion_ebsQuiet item _).1,
          (countByAccount_ebsQuiet item _).1, (countByType_ebsQuiet _ _).1]
    · have hne : vbeq (pyGet item "resourceType") (vStr "EBSVolume") = false :=
        Bool.not_eq_true _ ▸ Bool.of_not_eq_true hEBS
      rw [(dispatch_ebsQuiet _ item hne _).1]
      rw [(network_ebsQuiet _ item _).1, (countByRegion_ebsQuiet item _).1,
          (countByAccount_ebsQuiet item _).1, (countByType_ebsQuiet _ _).1]

/-- After `add_resource` has processed an EBS-typed record, the dedup
key of that record is in `_seen_ebs`. -/
theorem add_resource_seen_after (a : MetricsAccumulator) (item : Item)
    (h : pyGet item "resourceType" = vStr "EBSVolume") :
    seenMem (add_resource a item).seen_ebs (ebsDedupKey item) = true := by
  simp only [add_resource, h]
  have h0 : (!truthy (vStr "EBSVolume")) = false := by decide
  have h1 : vbeq (vStr "EBSVolume") (vStr "EC2Instance") = false := by decide
  have h2 : vbeq (vStr "EBSVolume") (vStr "RDSInstance") = false := by decide
  have h3 : vbeq (vStr "EBSVolume") (vStr "S3Bucket") = false := by decide
  have h4 : vbeq (vStr "EBSVolume") (vStr "EBSVolume") = true := by decide
  simp only [dispatchResource, h0, h1, h2, h3, h4, Bool.false_eq_true, if_false, if_true]
  exact process_ebs_seen_after _ item

/-- Membership in the dedup set is preserved when a new key is
appended at the end. -/
theorem seenMem_append_mono (l : List (Val × Val × Val)) (x k : Val × Val × Val)
    (h : seenMem l k = true) : seenMem (l ++ [x]) k = true := by
  induction l with
  | nil => simp [seenMem] at h
  | cons y rest ih =>
      simp only [seenMem, List.cons_append, Bool.or_eq_true] at h ⊢
      rcases h with h | h
      · exact Or.inl h
      · exact Or.inr (ih h)

/-- The EBS processor never removes a key from `_seen_ebs`: a key
seen before the call is still seen after it (the call either returns
early or appends one new key). -/
theorem process_ebs_seen_mono (a : MetricsAccumulator) (item : Item)
    (k : Val × Val × Val) (h : seenMem a.seen_ebs k = true) :
    seenMem (_process_ebs_item a item).seen_ebs k = true := by
  simp only [_process_ebs_item]
  split_ifs
  · exact h
  · exact seenMem_append_mono _ _ _ h
  · exact seenMem_append_mono _ _ _ h
  · split <;> exact seenMem_append_mono _ _ _ h

/-- No `add_resource` call removes a key from `_seen_ebs`: only the
EBS processor touches the set, and it only appends. -/
theorem add_resource_seen_mono (a : MetricsAccumulator) (item : Item)
    (k : Val × Val × Val) (h : seenMem a.seen_ebs k = true) :
    seenMem (add_resource a item).seen_ebs k = true := by
  simp only [add_resource]
  split_ifs
  · exact h
  · by_cases hEBS : vbeq (pyGet item "resourceType") (vStr "EBSVolume") = true
    · have hrt : pyGet item "resourceType" = vStr "EBSVolume" := eq_of_vbeq _ _ hEBS
      rw [hrt]
      have h1 : vbeq (vStr "EBSVolume") (vStr "EC2Instance") = false := by decide
      have h2 : vbeq (vStr "EBSVolume") (vStr "RDSInstance") = false := by decide
      have h3 : vbeq (vStr "EBSVolume") (vStr "S3Bucket") = false := by decide
      have h4 : vbeq (vStr "EBSVolume") (vStr "EBSVolume") = true := by decide
      simp only [dispatchResource, h1, h2, h3, h4, Bool.false_eq_true, if_false, if_true]
      apply process_ebs_seen_mono
      rw [(network_ebsQuiet _ item _).2, (countByRegion_ebsQuiet item _).2,
          (countByAccount_ebsQuiet item _).2, (countByType_ebsQuiet _ _).2]
      exact h
    · have hne : vbeq (pyGet item "resourceType") (vStr "EBSVolume") = false :=
        Bool.not_eq_true _ ▸ Bool.of_not_eq_true hEBS
      rw [(dispatch_ebsQuiet _ item hne _).2]
      rw [(network_ebsQuiet _ item _).2, (countByRegion_ebsQuiet item _).2,
          (countByAccount_ebsQuiet item _).2, (countByType_ebsQuiet _ _).2]
      exact h

/-- A key in `_seen_ebs` stays in it across any whole stream of
further `add_resource` calls. -/
theorem foldl_seen_mono (mid : List Item) :
    ∀ (a : MetricsAccumulator) (k : Val × Val × Val), seenMem a.seen_ebs k = true →
      seenMem ((mid.foldl add_resource a)).seen_ebs k = true := by
  induction mid with
  | nil => exact fun a k h => h
  | cons x xs ih => exact fun a k h => ih _ k (add_resource_seen_mono a x k h)

/-- C1: once `add_resource` has processed an EBS record since the
last reset, any further `add_resource` call on a record with the same
dedup key — no matter how many records of any kind are processed in
between, and in particular for the identical record appearing again
anywhere later in the input stream — leaves the unattached-EBS
counter unchanged, so a given volume is counted at most once per
accumulator lifetime. -/
theorem spec_C1_ebs_dedup (a : MetricsAccumulator) (item1 : Item) (mid : List Item)
    (item2 : Item)
    (h1 : pyGet item1 "resourceType" = vStr "EBSVolume")
    (h2 : ebsDedupKey item2 = ebsDedupKey item1) :
    (add_resource (mid.foldl add_resource (add_resource a item1)) item2).ebs_unattached =
      (mid.foldl add_resource (add_resource a item1)).ebs_unattached := by
  apply add_resource_unattached_of_seen
  rw [h2]
  exact foldl_seen_mono mid _ _ (add_resource_seen_after a item1 h1)

/-- Witness for C1: a concrete available volume fed again after an
intervening S3 record is counted once, not twice. -/
theorem spec_C1_ebs_dedup_witness :
    (add_resource
        ([[(vStr "resourceType", vStr "S3Bucket")]].foldl add_resource
          (add_resource resetAcc
            [(vStr "resourceType", vStr "EBSVolume"), (vStr "volumeId", vStr "vol-9"),
             (vStr "status", vStr "available")]))
        [(vStr "resourceType", vStr "EBSVolume"), (vStr "volumeId", vStr "vol-9"),
         (vStr "status", vStr "available")]).ebs_unattached =
      ([[(vStr "resourceType", vStr "S3Bucket")]].foldl add_resource
        (add_resource resetAcc
          [(vStr "resourceType", vStr "EBSVolume"), (vStr "volumeId", vStr "vol-9"),
           (vStr "status", vStr "available")])).ebs_unattached :=
  spec_C1_ebs_dedup resetAcc
    [(vStr "resourceType", vStr "EBSVolume"), (vStr "volumeId", vStr "vol-9"),
     (vStr "status", vStr "available")]
    [[(vStr "resourceType", vStr "S3Bucket")]]
    [(vStr "resourceType", vStr "EBSVolume"), (vStr "volumeId", vStr "vol-9"),
     (vStr "status", vStr "available")]
    rfl rfl

theorem ec2CwMemory_ec2Quiet (hm : Bool) : ec2Quiet (ec2CwMemory hm) := by
  intro a; unfold ec2CwMemory
  split_ifs <;> exact ⟨rfl, rfl, rfl, rfl, rfl, rfl, rfl, rfl⟩

theorem ec2CwDisk_ec2Quiet (hd : Bool) : ec2Quiet (ec2CwDisk hd) := by
  intro a; unfold ec2CwDisk
  split_ifs <;> exact ⟨rfl, rfl, rfl, rfl, rfl, rfl, rfl, rfl⟩

theorem ec2CwBoth_ec2Quiet (hm hd : Bool) : ec2Quiet (ec2CwBoth hm hd) := by
  intro a; unfold ec2CwBoth
  split_ifs <;> exact ⟨rfl, rfl, rfl, rfl, rfl, rfl, rfl, rfl⟩

/-- The SSM tri-state classifies into exactly one bucket: the three
bucket counters gain exactly one unit in total, everything else of
the partition family is unchanged. -/
theorem ec2Ssm_sums (item : Item) (a : MetricsAccumulator) :
    (ec2Ssm item a).ec2_ssm_connected + (ec2Ssm item a).ec2_ssm_notconnected +
        (ec2Ssm item a).ec2_ssm_notinstalled =
      a.ec2_ssm_connected + a.ec2_ssm_notconnected + a.ec2_ssm_notinstalled + 1 ∧
    (ec2Ssm item a).ec2_running = a.ec2_running ∧
    (ec2Ssm item a).ec2_total = a.ec2_total ∧
    (ec2Ssm item a).ec2_patch_compliant = a.ec2_patch_compliant ∧
    (ec2Ssm item a).ec2_patch_noncompliant = a.ec2_patch_noncompliant ∧
    (ec2Ssm item a).ec2_patch_unknown = a.ec2_patch_unknown := by
  simp only [ec2Ssm]
  split_ifs <;> refine ⟨?_, rfl, rfl, rfl, rfl, rfl⟩ <;> simp <;> omega

/-- The running block increments the running counter and exactly one
SSM bucket; totals and patch buckets are unchanged. -/
theorem ec2Running_sums (item : Item) (a : MetricsAccumulator) :
    (ec2Running item a).ec2_ssm_connected + (ec2Running item a).ec2_ssm_notconnected +
        (ec2Running item a).ec2_ssm_notinstalled =
      a.ec2_ssm_connected + a.ec2_ssm_notconnected + a.ec2_ssm_notinstalled + 1 ∧
    (ec2Running item a).ec2_running = a.ec2_running + 1 ∧
    (ec2Running item a).ec2_total = a.ec2_total ∧
    (ec2Running item a).ec2_patch_compliant = a.ec2_patch_compliant ∧
    (ec2Running item a).ec2_patch_noncompliant = a.ec2_patch_noncompliant ∧
    (ec2Running item a).ec2_patch_unknown = a.ec2_patch_unknown := by
  simp only [ec2Running]
  obtain ⟨s1, s2, s3, s4, s5, s6⟩ := ec2Ssm_sums item
    (ec2CwBoth (truthy (pyGetD item "cwAgentMemoryDetected" (vBool false)))
      (truthy (pyGetD item "cwAgentDiskDetected" (vBool false)))
      (ec2CwDisk (truthy (pyGetD item "cwAgentDiskDetected" (vBool false)))
        (ec2CwMemory (truthy (pyGetD item "cwAgentMemoryDetected" (vBool false)))
          { a with ec2_running := a.ec2_running + 1 })))
  obtain ⟨b1, b2, b3, b4, b5, b6, b7, b8⟩ := ec2CwBoth_ec2Quiet
    (truthy (pyGetD item "cwAgentMemoryDetected" (vBool false)))
    (truthy (pyGetD item "cwAgentDiskDetected" (vBool false)))
    (ec2CwDisk (truthy (pyGetD item "cwAgentDiskDetected" (vBool false)))
      (ec2CwMemory (truthy (pyGetD item "cwAgentMemoryDetected" (vBool false)))
        { a with ec2_running := a.ec2_running + 1 }))
  obtain ⟨d1, d2, d3, d4, d5, d6, d7, d8⟩ := ec2CwDisk_ec2Quiet
    (truthy (pyGetD item "cwAgentDiskDetected" (vBool false)))
    (ec2CwMemory (truthy (pyGetD item "cwAgentMemoryDetected" (vBool false)))
      { a with ec2_running := a.ec2_running + 1 })
  obtain ⟨m1, m2, m3, m4, m5, m6, m7, m8⟩ := ec2CwMemory_ec2Quiet
    (truthy (pyGetD item "cwAgentMemoryDetected" (vBool false)))
    { a with ec2_running := a.ec2_running + 1 }
  have v1 : ({ a with ec2_running := a.ec2_running + 1 } : MetricsAccumulator).ec2_ssm_connected
      = a.ec2_ssm_connected := rfl
  have v2 : ({ a with ec2_running := a.ec2_running + 1 } : MetricsAccumulator).ec2_ssm_notconnected
      = a.ec2_ssm_notconnected := rfl
  have v3 : ({ a with ec2_running := a.ec2_running + 1 } : MetricsAccumulator).ec2_ssm_notinstalled
      = a.ec2_ssm_notinstalled := rfl
  have v4 : ({ a with ec2_running := a.ec2_running + 1 } : MetricsAccumulator).ec2_running
      = a.ec2_running + 1 := rfl
  have v5 : ({ a with ec2_running := a.ec2_running + 1 } : MetricsAccumulator).ec2_total
      = a.ec2_total := rfl
  have v6 : ({ a with ec2_running := a.ec2_running + 1 } : MetricsAccumulator).ec2_patch_compliant
      = a.ec2_patch_compliant := rfl
  have v7 : ({ a with ec2_running := a.ec2_running + 1 } : MetricsAccumulator).ec2_patch_noncompliant
      = a.ec2_patch_noncompliant := rfl
  have v8 : ({ a with ec2_running := a.ec2_running + 1 } : MetricsAccumulator).ec2_patch_unknown
      = a.ec2_patch_unknown := rfl
  refine ⟨?_, ?_, ?_, ?_, ?_, ?_⟩ <;> omega

theorem ec2TotalStep_char (a : MetricsAccumulator) :
    (ec2TotalStep a).ec2_ssm_connected = a.ec2_ssm_connected ∧
    (ec2TotalStep a).ec2_ssm_notconnected = a.ec2_ssm_notconnected ∧
    (ec2TotalStep a).ec2_ssm_notinstalled = a.ec2_ssm_notinstalled ∧
    (ec2TotalStep a).ec2_running = a.ec2_running ∧
    (ec2TotalStep a).ec2_total = a.ec2_total + 1 ∧
    (ec2TotalStep a).ec2_patch_compliant = a.ec2_patch_compliant ∧
    (ec2TotalStep a).ec2_patch_noncompliant = a.ec2_patch_noncompliant ∧
    (ec2TotalStep a).ec2_patch_unknown = a.ec2_patch_unknown :=
  ⟨rfl, rfl, rfl, rfl, rfl, rfl, rfl, rfl⟩

theorem ec2StatesStep_ec2Quiet (st : String) : ec2Quiet (ec2StatesStep st) := by
  intro a; unfold ec2StatesStep
  exact ⟨rfl, rfl, rfl, rfl, rfl, rfl, rfl, rfl⟩

theorem ec2HealthStep_ec2Quiet (item : Item) : ec2Quiet (ec2HealthStep item) := by
  intro a; unfold ec2HealthStep
  exact ⟨rfl, rfl, rfl, rfl, rfl, rfl, rfl, rfl⟩

/-- The patch-compliance tri-state classifies into exactly one
bucket. -/
theorem ec2Patch_char (item : Item) (a : MetricsAccumulator) :
    (ec2Patch item a).ec2_ssm_connected = a.ec2_ssm_connected ∧
    (ec2Patch item a).ec2_ssm_notconnected = a.ec2_ssm_notconnected ∧
    (ec2Patch item a).ec2_ssm_notinstalled = a.ec2_ssm_notinstalled ∧
    (ec2Patch item a).ec2_running = a.ec2_running ∧
    (ec2Patch item a).ec2_total = a.ec2_total ∧
    (ec2Patch item a).ec2_patch_compliant + (ec2Patch item a).ec2_patch_noncompliant +
        (ec2Patch item a).ec2_patch_unknown =
      a.ec2_patch_compliant + a.ec2_patch_noncompliant + a.ec2_patch_unknown + 1 := by
  simp only [ec2Patch]
  split_ifs <;> refine ⟨rfl, rfl, rfl, rfl, rfl, ?_⟩ <;> simp <;> omega

/-- The running/stopped dispatch adds one to the SSM buckets exactly
when it adds one to the running counter; totals and patch buckets
are unchanged. -/
theorem ec2StateBlock_char (item : Item) (st : String) (a : MetricsAccumulator) :
    (ec2StateBlock item st a).ec2_ssm_connected + (ec2StateBlock item st a).ec2_ssm_notconnected +
        (ec2StateBlock item st a).ec2_ssm_notinstalled + a.ec2_running =
      a.ec2_ssm_connected + a.ec2_ssm_notconnected + a.ec2_ssm_notinstalled +
        (ec2StateBlock item st a).ec2_running ∧
    (ec2StateBlock item st a).ec2_total = a.ec2_total ∧
    (ec2StateBlock item st a).ec2_patch_compliant = a.ec2_patch_compliant ∧
    (ec2StateBlock item st a).ec2_patch_noncompliant = a.ec2_patch_noncompliant ∧
    (ec2StateBlock item st a).ec2_patch_unknown = a.ec2_patch_unknown := by
  simp only [ec2StateBlock]
  split_ifs
  · obtain ⟨r1, r2, r3, r4, r5, r6⟩ := ec2Running_sums item a
    exact ⟨by omega, r3, r4, r5, r6⟩
  · exact ⟨rfl, rfl, rfl, rfl, rfl⟩
  · exact ⟨rfl, rfl, rfl, rfl, rfl⟩

/-- A transform that leaves the eight partition counters unchanged
preserves the partition equations. -/
theorem InvSums_of_ec2Quiet {f : MetricsAccumulator → MetricsAccumulator}
    (hf : ec2Quiet f) {b : MetricsAccumulator} (hb : InvSums b) : InvSums (f b) := by
  obtain ⟨e1, e2, e3, e4, e5, e6, e7, e8⟩ := hf b
  exact ⟨by rw [e1, e2, e3, e4]; exact hb.1, by rw [e6, e7, e8, e5]; exact hb.2⟩

/-- Composition step for the EC2 processor invariant, stated over an
arbitrary state string. -/
theorem process_ec2_invariant_aux (item : Item) (st : String) (a : MetricsAccumulator)
    (ha : InvSums a) :
    InvSums (ec2Patch item
      (ec2HealthStep item (ec2StateBlock item st (ec2StatesStep st (ec2TotalStep a))))) := by
  obtain ⟨hssm, hpatch⟩ := ha
  set A1 := ec2TotalStep a with hA1
  set A2 := ec2StatesStep st A1 with hA2
  set A3 := ec2StateBlock item st A2 with hA3
  set A4 := ec2HealthStep item A3 with hA4
  obtain ⟨p1, p2, p3, p4, p5, p6⟩ := ec2Patch_char item A4
  have q := ec2HealthStep_ec2Quiet item A3
  rw [← hA4] at q
  obtain ⟨q1, q2, q3, q4, q5, q6, q7, q8⟩ := q
  have s := ec2StateBlock_char item st A2
  rw [← hA3] at s
  obtain ⟨s1, s2, s3, s4, s5⟩ := s
  have t := ec2StatesStep_ec2Quiet st A1
  rw [← hA2] at t
  obtain ⟨t1, t2, t3, t4, t5, t6, t7, t8⟩ := t
  have u := ec2TotalStep_char a
  rw [← hA1] at u
  obtain ⟨u1, u2, u3, u4, u5, u6, u7, u8⟩ := u
  exact ⟨by omega, by omega⟩

/-- One EC2 record preserves both partition equations: it increments
the total and exactly one patch bucket, and increments the running
counter and exactly one SSM bucket together or neither. -/
theorem process_ec2_invariant (item : Item) (a : MetricsAccumulator) (ha : InvSums a) :
    InvSums (_process_ec2_item a item) := by
  simp only [_process_ec2_item]
  exact process_ec2_invariant_aux item _ a ha

/-- The dispatch table preserves both partition equations. -/
theorem dispatch_invariant (rt : Val) (item : Item) (b : MetricsAccumulator)
    (hb : InvSums b) : InvSums (dispatchResource rt item b) := by
  unfold dispatchResource
  split_ifs <;> first
    | exact process_ec2_invariant item b hb
    | exact InvSums_of_ec2Quiet (process_rds_ec2Quiet item) hb
    | exact InvSums_of_ec2Quiet (process_s3_ec2Quiet item) hb
    | exact InvSums_of_ec2Quiet (process_ebs_ec2Quiet item) hb
    | exact InvSums_of_ec2Quiet (process_eip_ec2Quiet item) hb
    | exact InvSums_of_ec2Quiet (process_sg_ec2Quiet item) hb
    | exact InvSums_of_ec2Quiet (process_snapshot_ec2Quiet item) hb
    | exact InvSums_of_ec2Quiet (dispatchFlat_ec2Quiet rt) hb

/-- One `add_resource` call preserves both partition equations. -/
theorem add_resource_invariant (a : MetricsAccumulator) (item : Item)
    (ha : InvSums a) : InvSums (add_resource a item) := by
  simp only [add_resource]
  split_ifs
  · exact ha
  · exact dispatch_invariant _ item _
      (InvSums_of_ec2Quiet (network_ec2Quiet _ item)
        (InvSums_of_ec2Quiet (countByRegion_ec2Quiet item)
          (InvSums_of_ec2Quiet (countByAccount_ec2Quiet item)
            (InvSums_of_ec2Quiet (countByType_ec2Quiet _) ha))))

/-- C10: after any sequence of `add_resource` calls from a reset
accumulator, the SSM buckets partition the running EC2 instances and
the patch buckets partition all EC2 instances. -/
theorem spec_C10_ec2_partitions (items : List Item) :
    (items.foldl add_resource resetAcc).ec2_ssm_connected +
        (items.foldl add_resource resetAcc).ec2_ssm_notconnected +
        (items.foldl add_resource resetAcc).ec2_ssm_notinstalled =
      (items.foldl add_resource resetAcc).ec2_running ∧
    (items.foldl add_resource resetAcc).ec2_patch_compliant +
        (items.foldl add_resource resetAcc).ec2_patch_noncompliant +
        (items.foldl add_resource resetAcc).ec2_patch_unknown =
      (items.foldl add_resource resetAcc).ec2_total := by
  have H : ∀ (l : List Item) (b : MetricsAccumulator), InvSums b → InvSums (l.foldl add_resource b) := by
    intro l
    induction l with
    | nil => exact fun b hb => hb
    | cons x xs ih => exact fun b hb => ih _ (add_resource_invariant _ _ hb)
  exact H items resetAcc ⟨rfl, rfl⟩

theorem lookupCountS_bumpS (m : List (String × Nat)) (k : String) :
    lookupCountS (bumpS m k) k = lookupCountS m k + 1 := by
  induction m with
  | nil => simp [bumpS, lookupCountS]
  | cons p rest ih =>
      obtain ⟨k', n⟩ := p
      by_cases h : k' = k
      · simp [bumpS, lookupCountS, h]
      · simp [bumpS, lookupCountS, h, ih]

theorem ec2CwMemory_c5Quiet (hm : Bool) : c5Quiet (ec2CwMemory hm) := by
  intro a; unfold ec2CwMemory; split_ifs <;> exact ⟨rfl, rfl, rfl⟩

theorem ec2CwDisk_c5Quiet (hd : Bool) : c5Quiet (ec2CwDisk hd) := by
  intro a; unfold ec2CwDisk; split_ifs <;> exact ⟨rfl, rfl, rfl⟩

theorem ec2CwBoth_c5Quiet (hm hd : Bool) : c5Quiet (ec2CwBoth hm hd) := by
  intro a; unfold ec2CwBoth; split_ifs <;> exact ⟨rfl, rfl, rfl⟩

theorem ec2HealthStep_c5Quiet (item : Item) : c5Quiet (ec2HealthStep item) := by
  intro a; unfold ec2HealthStep; exact ⟨rfl, rfl, rfl⟩

/-- A record whose `ssmStatus` is the string `"Online"` is classified
into the connected SSM bucket (the lowercased status is in the
connected list). -/
theorem ec2Ssm_online (item : Item) (b : MetricsAccumulator)
    (h : pyGet item "ssmStatus" = vStr "Online") :
    (ec2Ssm item b).ec2_ssm_connected = b.ec2_ssm_connected + 1 ∧
    (ec2Ssm item b).ec2_states = b.ec2_states ∧
    (ec2Ssm item b).ec2_patch_compliant = b.ec2_patch_compliant := by
  simp only [ec2Ssm, h]
  have hl : pyLower (pyStrOr (vStr "Online") "") = "online" := by decide
  rw [hl]
  rw [if_pos (Or.inr rfl)]
  exact ⟨rfl, rfl, rfl⟩

/-- Through the running block, an `"Online"` SSM status increments
the connected bucket once; the state histogram and the compliant
counter are untouched. -/
theorem ec2Running_c5 (item : Item) (b : MetricsAccumulator)
    (h : pyGet item "ssmStatus" = vStr "Online") :
    (ec2Running item b).ec2_ssm_connected = b.ec2_ssm_connected + 1 ∧
    (ec2Running item b).ec2_states = b.ec2_states ∧
    (ec2Running item b).ec2_patch_compliant = b.ec2_patch_compliant := by
  simp only [ec2Running]
  obtain ⟨o1, o2, o3⟩ := ec2Ssm_online item
    (ec2CwBoth (truthy (pyGetD item "cwAgentMemoryDetected" (vBool false)))
      (truthy (pyGetD item "cwAgentDiskDetected" (vBool false)))
      (ec2CwDisk (truthy (pyGetD item "cwAgentDiskDetected" (vBool false)))
        (ec2CwMemory (truthy (pyGetD item "cwAgentMemoryDetected" (vBool false)))
          { b with ec2_running := b.ec2_running + 1 }))) h
  obtain ⟨b1, b2, b3⟩ := ec2CwBoth_c5Quiet
    (truthy (pyGetD item "cwAgentMemoryDetected" (vBool false)))
    (truthy (pyGetD item "cwAgentDiskDetected" (vBool false)))
    (ec2CwDisk (truthy (pyGetD item "cwAgentDiskDetected" (vBool false)))
      (ec2CwMemory (truthy (pyGetD item "cwAgentMemoryDetected" (vBool false)))
        { b with ec2_running := b.ec2_running + 1 }))
  obtain ⟨d1, d2, d3⟩ := ec2CwDisk_c5Quiet
    (truthy (pyGetD item "cwAgentDiskDetected" (vBool false)))
    (ec2CwMemory (truthy (pyGetD item "cwAgentMemoryDetected" (vBool false)))
      { b with ec2_running := b.ec2_running + 1 })
  obtain ⟨m1, m2, m3⟩ := ec2CwMemory_c5Quiet
    (truthy (pyGetD item "cwAgentMemoryDetected" (vBool false)))
    { b with ec2_running := b.ec2_running + 1 }
  refine ⟨?_, ?_, ?_⟩
  · rw [o1, b2, d2, m2]
  · rw [o2, b1, d1, m1]
  · rw [o3, b3, d3, m3]

/-- A record whose `patchCompliance` is the string `"Compliant"` is
classified into the compliant bucket. -/
theorem ec2Patch_compliant (item : Item) (b : MetricsAccumulator)
    (h : pyGet item "patchCompliance" = vStr "Compliant") :
    (ec2Patch item b).ec2_patch_compliant = b.ec2_patch_compliant + 1 ∧
    (ec2Patch item b).ec2_states = b.ec2_states ∧
    (ec2Patch item b).ec2_ssm_connected = b.ec2_ssm_connected := by
  simp only [ec2Patch, h]
  have hl : pyLower (pyStrip (pyStrOr (vStr "Compliant") "Unknown")) = "compliant" := by decide
  rw [hl]
  rw [if_pos rfl]
  exact ⟨rfl, rfl, rfl⟩

theorem ec2StateBlock_running (item : Item) (b : MetricsAccumulator) :
    ec2StateBlock item "running" b = ec2Running item b := by
  simp [ec2StateBlock]

/-- C5: one `add_resource` call on an EC2 record with
`instanceState="running"`, `ssmStatus="Online"` and
`patchCompliance="Compliant"` increments the `running` bucket of the
state histogram, the SSM connected counter, and the patch compliant
counter, each by exactly one. -/
theorem spec_C5_ec2_running_online_compliant (a : MetricsAccumulator) (item : Item)
    (h1 : pyGet item "resourceType" = vStr "EC2Instance")
    (h2 : pyGet item "instanceState" = vStr "running")
    (h3 : pyGet item "ssmStatus" = vStr "Online")
    (h4 : pyGet item "patchCompliance" = vStr "Compliant") :
    lookupCountS (add_resource a item).ec2_states "running" =
      lookupCountS a.ec2_states "running" + 1 ∧
    (add_resource a item).ec2_ssm_connected = a.ec2_ssm_connected + 1 ∧
    (add_resource a item).ec2_patch_compliant = a.ec2_patch_compliant + 1 := by
  simp only [add_resource, h1]
  have h0 : (!truthy (vStr "EC2Instance")) = false := by decide
  have hd : vbeq (vStr "EC2Instance") (vStr "EC2Instance") = true := by decide
  simp only [h0, Bool.false_eq_true, if_false, dispatchResource, hd, if_true]
  simp only [_process_ec2_item, h2]
  have hst : pyLower (pyStrOr (vStr "running") "unknown") = "running" := by decide
  rw [hst]
  set X := _process_network_resource
    (countByRegion item (countByAccount item (countByType (vStr "EC2Instance") a)))
    (vStr "EC2Instance") item with hX
  set A1 := ec2TotalStep X with hA1
  set A2 := ec2StatesStep "running" A1 with hA2
  rw [ec2StateBlock_running item A2]
  set A3 := ec2Running item A2 with hA3
  set A4 := ec2HealthStep item A3 with hA4
  obtain ⟨p1, p2, p3⟩ := ec2Patch_compliant item A4 h4
  have q := ec2HealthStep_c5Quiet item A3
  rw [← hA4] at q
  obtain ⟨q1, q2, q3⟩ := q
  have r := ec2Running_c5 item A2 h3
  rw [← hA3] at r
  obtain ⟨r1, r2, r3⟩ := r
  have hx : X.ec2_states = a.ec2_states ∧ X.ec2_ssm_connected = a.ec2_ssm_connected ∧
      X.ec2_patch_compliant = a.ec2_patch_compliant := by
    rw [hX]
    obtain ⟨n1, n2, n3⟩ := network_c5Quiet (vStr "EC2Instance") item
      (countByRegion item (countByAccount item (countByType (vStr "EC2Instance") a)))
    obtain ⟨g1, g2, g3⟩ := countByRegion_c5Quiet item
      (countByAccount item (countByType (vStr "EC2Instance") a))
    obtain ⟨c1, c2, c3⟩ := countByAccount_c5Quiet item (countByType (vStr "EC2Instance") a)
    obtain ⟨e1, e2, e3⟩ := countByType_c5Quiet (vStr "EC2Instance") a
    exact ⟨by rw [n1, g1, c1, e1], by rw [n2, g2, c2, e2], by rw [n3, g3, c3, e3]⟩
  obtain ⟨x1, x2, x3⟩ := hx
  have hA2states : A2.ec2_states = bumpS X.ec2_states "running" := by rw [hA2, hA1]; rfl
  have hA2conn : A2.ec2_ssm_connected = X.ec2_ssm_connected := by rw [hA2, hA1]; rfl
  have hA2pc : A2.ec2_patch_compliant = X.ec2_patch_compliant := by rw [hA2, hA1]; rfl
  refine ⟨?_, ?_, ?_⟩
  · rw [p2, q1, r2, hA2states, x1, lookupCountS_bumpS]
  · rw [p3, q2, r1, hA2conn, x2]
  · rw [p1, q3, r3, hA2pc, x3]

/-- Witness for C5: a concrete running/Online/Compliant EC2 record
against the fresh accumulator. -/
theorem spec_C5_witness :
    lookupCountS (add_resource resetAcc
        [(vStr "resourceType", vStr "EC2Instance"), (vStr "instanceState", vStr "running"),
         (vStr "ssmStatus", vStr "Online"), (vStr "patchCompliance", vStr "Compliant")]).ec2_states
        "running" =
      lookupCountS resetAcc.ec2_states "running" + 1 ∧
    (add_resource resetAcc
        [(vStr "resourceType", vStr "EC2Instance"), (vStr "instanceState", vStr "running"),
         (vStr "ssmStatus", vStr "Online"), (vStr "patchCompliance", vStr "Compliant")]).ec2_ssm_connected =
      resetAcc.ec2_ssm_connected + 1 ∧
    (add_resource resetAcc
        [(vStr "resourceType", vStr "EC2Instance"), (vStr "instanceState", vStr "running"),
         (vStr "ssmStatus", vStr "Online"), (vStr "patchCompliance", vStr "Compliant")]).ec2_patch_compliant =
      resetAcc.ec2_patch_compliant + 1 :=
  spec_C5_ec2_running_online_compliant resetAcc
    [(vStr "resourceType", vStr "EC2Instance"), (vStr "instanceState", vStr "running"),
     (vStr "ssmStatus", vStr "Online"), (vStr "patchCompliance", vStr "Compliant")]
    rfl rfl rfl rfl

/-- C4: for a nonzero denominator the percentage helper returns the
round-half-even of the exact rational `100 * n / d` (the source
computes `round((n / d) * 100)`, an equal rational); for a zero
denominator it returns 0.  Totality of the definition is the
embedding of the no-raise contract. -/
theorem spec_C4_safe_pct (n d : Int) (h : d ≠ 0) :
    _safe_pct n d = pyRound ((100 * n : ℚ) / (d : ℚ)) ∧ _safe_pct n 0 = 0 := by
  constructor
  · unfold _safe_pct
    rw [if_neg h]
    congr 1
    ring
  · rfl

/-- Witness for C4 at `n = 1`, `d = 3`. -/
theorem spec_C4_witness :
    _safe_pct 1 3 = pyRound ((100 * 1 : ℚ) / (3 : ℚ)) ∧ _safe_pct 1 0 = 0 :=
  spec_C4_safe_pct 1 3 (by decide)

/-- C7: flattening the two-level SSM example into an empty target
yields exactly the two underscore-joined keys, and the sanitizer maps
`"My Key!"` (space and punctuation replaced by underscores, trailing
underscore trimmed) to `"My_Key"`. -/
theorem spec_C7_flatten_examples :
    flatten_metric []
        (vDict [(vStr "ssmAgent",
          vDict [(vStr "connected", vInt 97), (vStr "notConnected", vInt 7)])]) "" =
      [(vStr "ssmAgent_connected", vInt 97), (vStr "ssmAgent_notConnected", vInt 7)] ∧
    _sanitize_flat_key (vStr "My Key!") = "My_Key" :=
  ⟨rfl, rfl⟩

/-- Fold characterization of the per-table write loop: the result is
the count of the last successful write, falling back to the initial
accumulator when no write succeeds; failures are consumed by the
loop and every table in the list is attempted. -/
theorem getLast?_getD_cons {α : Type} (l : List α) (x init : α) :
    (x :: l).getLast?.getD init = l.getLast?.getD x := by
  cases l with
  | nil => rfl
  | cons y ys =>
      rw [List.getLast?_cons_cons]
      cases h : (y :: ys).getLast? with
      | none => exact absurd (List.getLast?_eq_none_iff.mp h) (by simp)
      | some v => rfl

theorem foldl_lastSuccess {τ ε : Type} (f : τ → Except ε Nat) :
    ∀ (l : List τ) (init : Nat),
      l.foldl (fun acc t => match f t with | Except.ok c => c | Except.error _ => acc) init =
        ((l.filterMap fun t => (f t).toOption).getLast?).getD init
  | [], _ => rfl
  | t :: ts, init => by
      simp only [List.foldl_cons, List.filterMap_cons]
      cases hft : f t with
      | ok c =>
          simp only [hft, Except.toOption]
          rw [foldl_lastSuccess f ts c, getLast?_getD_cons]
          rfl
      | error e =>
          simp only [hft, Except.toOption]
          rw [foldl_lastSuccess f ts init]
          rfl

/-- C9: `save_metrics_to_dynamodb` never lets a write failure escape
(it is a total function of the write results), attempts every table
in the list, and returns the count reported by the last successful
batch write — 0 when no write succeeded — not a sum across
tables. -/
theorem spec_C9_last_successful_write {τ ε : Type}
    (batch_write : τ → List (List (Val × Val)) → Except ε Nat) (metrics_tables : List τ)
    (metrics : Val) (date_str_iso date_str_br iso_timestamp : String) (duration : Val) :
    save_metrics_to_dynamodb batch_write metrics_tables metrics
        date_str_iso date_str_br iso_timestamp duration =
      ((metrics_tables.filterMap fun t =>
          (batch_write t
            (items_to_save metrics date_str_iso date_str_br iso_timestamp duration)).toOption).getLast?).getD
        0 :=
  foldl_lastSuccess
    (fun t => batch_write t (items_to_save metrics date_str_iso date_str_br iso_timestamp duration))
    metrics_tables 0

/-- Counterexample to C3 as stated: a virtual interface with
`bgpAllUp=false` and a peer reporting `bgpStatus="up"` is classified
UNHEALTHY (the explicit boolean is returned as-is before any peer is
consulted), so its health bucket gains a total but no healthy
count. -/
theorem spec_C3_counterexample :
    _is_direct_connect_virtual_interface_healthy
        [(vStr "bgpAllUp", vBool false),
         (vStr "bgpPeers", vList [vDict [(vStr "bgpStatus", vStr "up")]])] = false ∧
    ((add_resource resetAcc
        [(vStr "resourceType", vStr "DirectConnectVirtualInterface"),
         (vStr "bgpAllUp", vBool false),
         (vStr "bgpPeers", vList [vDict [(vStr "bgpStatus", vStr "up")]])]).network_health.lookup
      "directConnectVirtualInterfaces") = some ⟨1, 0⟩ :=
  ⟨rfl, rfl⟩

/-- C3 (amended): whenever `bgpAllUp` is an explicit boolean, the
virtual-interface classification returns it as-is — `false` means
unhealthy even when `bgpPeers` report up, `true` means healthy
regardless of the peer contents; peer data is only consulted when no
higher-priority signal exists. -/
theorem spec_C3_bgpAllUp_wins (item : Item) (b : Bool)
    (h : pyGet item "bgpAllUp" = vBool b) :
    _is_direct_connect_virtual_interface_healthy item = b := by
  unfold _is_direct_connect_virtual_interface_healthy
  have hne : item.isEmpty = false := by
    cases item with
    | nil => simp [pyGet, lookupV] at h
    | cons x xs => rfl
  simp only [hne, Bool.false_eq_true, if_false, h]

/-- Witness for C3 (amended): `bgpAllUp=true` forces healthy even
with a down peer. -/
theorem spec_C3_witness :
    _is_direct_connect_virtual_interface_healthy
        [(vStr "bgpAllUp", vBool true),
         (vStr "bgpPeers", vList [vDict [(vStr "bgpStatus", vStr "down")]])] = true :=
  spec_C3_bgpAllUp_wins
    [(vStr "bgpAllUp", vBool true),
     (vStr "bgpPeers", vList [vDict [(vStr "bgpStatus", vStr "down")]])]
    true rfl

/-- Evaluation for C2: a fresh EBS record with no state fields and a
native empty `attachments` list is NOT counted (the `or`-chain over
the three attachment field names discards the falsy empty list, so
the normalizer receives `None` and reports indeterminate), while the
very same empty list supplied as `attached_instances` — the last
operand of the chain, returned even when falsy — IS counted, as is
the JSON string `"[]"`; a one-element attachments list is not
counted.  The first fact contradicts the claim and the comment above
the fallback in the source. -/
theorem spec_C2_empty_attachments_eval :
    (add_resource resetAcc
        [(vStr "resourceType", vStr "EBSVolume"), (vStr "volumeId", vStr "vol-1"),
         (vStr "attachments", vList [])]).ebs_unattached = 0 ∧
    (add_resource resetAcc
        [(vStr "resourceType", vStr "EBSVolume"), (vStr "volumeId", vStr "vol-1"),
         (vStr "attached_instances", vList [])]).ebs_unattached = 1 ∧
    (add_resource resetAcc
        [(vStr "resourceType", vStr "EBSVolume"), (vStr "volumeId", vStr "vol-1"),
         (vStr "attachments", vStr "[]")]).ebs_unattached = 1 ∧
    (add_resource resetAcc
        [(vStr "resourceType", vStr "EBSVolume"), (vStr "volumeId", vStr "vol-1"),
         (vStr "attachments", vList [vDict [(vStr "instanceId", vStr "i-1")]])]).ebs_unattached = 0 :=
  ⟨rfl, rfl, rfl, rfl⟩

theorem lookupV_dictSet_same (d : List (Val × Val)) (k v : Val) :
    lookupV (dictSet d k v) k = some v := by
  induction d with
  | nil => simp [dictSet, lookupV, vbeq_refl]
  | cons p rest ih =>
      obtain ⟨k', v'⟩ := p
      by_cases h : vbeq k' k = true
      · simp [dictSet, lookupV, h]
      · simp [dictSet, lookupV, h, ih]

theorem lookupV_dictSet_skip (d : List (Val × Val)) (s : String) (v k : Val)
    (h : vbeq (vStr s) k = false) :
    lookupV (dictSet d (vStr s) v) k = lookupV d k := by
  induction d with
  | nil => simp [dictSet, lookupV, h]
  | cons p rest ih =>
      obtain ⟨k', v'⟩ := p
      by_cases hk : vbeq k' (vStr s) = true
      · have : k' = vStr s := eq_of_vbeq _ _ hk
        subst this
        simp [dictSet, lookupV, vbeq_refl, h]
      · simp only [dictSet, lookupV]
        rw [if_neg (by simp [hk])]
        simp only [lookupV]
        by_cases hkk : vbeq k' k = true
        · simp [hkk]
        · rw [if_neg (by simp [hkk]), if_neg (by simp [hkk])]
          exact ih

/-- C8: the dated/archived dashboard item agrees with the current
item on every field other than `id`, `isLatest` and `isArchive`:
those three are respectively the date-suffixed identity, `False` and
`True`, and everything else — all the flattened metric fields — is
looked up identically in both items, for every metrics tree and
timestamp. -/
theorem spec_C8_dated_item_fields (metrics : Val)
    (date_str_iso date_str_br iso_timestamp : String) (duration : Val) (k : Val)
    (h1 : vbeq (vStr "id") k = false)
    (h2 : vbeq (vStr "isLatest") k = false)
    (h3 : vbeq (vStr "isArchive") k = false) :
    lookupV (datedItemOf
        (buildDashboardItem metrics date_str_iso date_str_br iso_timestamp duration)
        date_str_br) k =
      lookupV (buildDashboardItem metrics date_str_iso date_str_br iso_timestamp duration) k ∧
    lookupV (datedItemOf
        (buildDashboardItem metrics date_str_iso date_str_br iso_timestamp duration)
        date_str_br) (vStr "id") =
      some (vStr ("METRICS_DASHBOARD_" ++ date_str_br)) ∧
    lookupV (datedItemOf
        (buildDashboardItem metrics date_str_iso date_str_br iso_timestamp duration)
        date_str_br) (vStr "isLatest") = some (vBool false) ∧
    lookupV (datedItemOf
        (buildDashboardItem metrics date_str_iso date_str_br iso_timestamp duration)
        date_str_br) (vStr "isArchive") = some (vBool true) := by
  unfold datedItemOf
  refine ⟨?_, ?_, ?_, ?_⟩
  · rw [lookupV_dictSet_skip _ _ _ _ h3, lookupV_dictSet_skip _ _ _ _ h2,
        lookupV_dictSet_skip _ _ _ _ h1]
  · rw [lookupV_dictSet_skip _ _ _ _ (by decide), lookupV_dictSet_skip _ _ _ _ (by decide),
        lookupV_dictSet_same]
  · rw [lookupV_dictSet_skip _ _ _ _ (by decide), lookupV_dictSet_same]
  · rw [lookupV_dictSet_same]

/-- Witness for C8 at a concrete metrics tree, date and field. -/
theorem spec_C8_witness :
    lookupV (datedItemOf (buildDashboardItem (vDict []) "2025-09-24" "24_09_2025" "ts" (vInt 0))
        "24_09_2025") (vStr "region") =
      lookupV (buildDashboardItem (vDict []) "2025-09-24" "24_09_2025" "ts" (vInt 0))
        (vStr "region") :=
  (spec_C8_dated_item_fields (vDict []) "2025-09-24" "24_09_2025" "ts" (vInt 0)
    (vStr "region") (by decide) (by decide) (by decide)).1

/-- C6: the snapshot binds the `ec2` key to a section exactly when
the EC2 total is nonzero and the `rds` key exactly when the RDS total
is nonzero — an empty service is represented by the `None` the source
initializes the section variable to, which is how an absent section
is written in this dictionary (downstream reads do
`metrics.get(key)` and treat `None` as no data); the global, storage,
unattached, security and network sections are always populated
dictionaries. -/
theorem spec_C6_optional_sections (a : MetricsAccumulator) :
    (dGet (get_metrics a) "ec2" ≠ vNull ↔ a.ec2_total ≠ 0) ∧
    (dGet (get_metrics a) "rds" ≠ vNull ↔ a.rds_total ≠ 0) ∧
    dGet (get_metrics a) "global" ≠ vNull ∧
    dGet (get_metrics a) "storage" ≠ vNull ∧
    dGet (get_metrics a) "unattached" ≠ vNull ∧
    dGet (get_metrics a) "security" ≠ vNull ∧
    dGet (get_metrics a) "network" ≠ vNull := by
  refine ⟨?_, ?_, ?_, ?_, ?_, ?_, ?_⟩
  · by_cases h : a.ec2_total = 0
    · simp [get_metrics, dGet, dGetD, lookupV, vbeq, h]
    · have hp : a.ec2_total > 0 := Nat.pos_of_ne_zero h
      simp [get_metrics, dGet, dGetD, lookupV, vbeq, h, hp]
  · by_cases h : a.rds_total = 0
    · simp [get_metrics, dGet, dGetD, lookupV, vbeq, h]
    · have hp : a.rds_total > 0 := Nat.pos_of_ne_zero h
      simp [get_metrics, dGet, dGetD, lookupV, vbeq, h, hp]
  · simp [get_metrics, dGet, dGetD, lookupV, vbeq]
  · simp [get_metrics, dGet, dGetD, lookupV, vbeq]
  · simp [get_metrics, dGet, dGetD, lookupV, vbeq]
  · simp [get_metrics, dGet, dGetD, lookupV, vbeq]
  · simp [get_metrics, dGet, dGetD, lookupV, vbeq, _build_network_health_metrics]
